import Mathlib

/-!
# vtkCompassRepresentation: a shallow embedding

Source: `Interaction/Widgets/vtkCompassRepresentation.cxx`.

Conventions of the embedding.

* A C++ `double` is a rational number.  Where rounding decides what the code
  does (`SetHeading`, `WidgetInteraction`, `Normalize`) every arithmetic
  operation is rounded to binary64 (`binary64`: round to nearest, ties to even,
  53 significant bits; the exponent range is not modelled).  Elsewhere (the
  clamps of tilt and distance, `GetCenterAndUnitRadius`, the layout) the
  arithmetic is exact; `std::min`, `std::max` and `floor` are exact in either
  case.  NaN and the infinities are outside the model.
* A C++ `int` is an unbounded integer (`ℤ`); the pixel coordinates handled
  here are far from the overflow range.
* `static_cast<int>(double)` truncates toward zero (`truncate`).
* In `ComputeInteractionState` the tests `sqrt(n) < b` and `sqrt(n) > a` for an
  integer `n ≥ 0` are decided exactly (`sqrtLt`, `sqrtGt`); the theorems relate
  them to `Real.sqrt`.  `InteractionStateFromTests` is the same method with the
  outcomes of the comparisons as parameters, for statements that must not
  depend on how the comparisons are computed.
* The object is a record of the fields the member functions read and write;
  a member function is a function from the record to the record.
* The time stamps of `vtkObject::Modified` and `vtkTimeStamp::Modified` are
  drawn from one strictly increasing clock, kept in the record (`Clock`).
-/

/-! ## Collaborators that are not part of the sources -/

/-- Modelled from the spec: the values of the slider sub-control's
`InteractionStateType` (`vtkSliderRepresentation.h` is not among the sources);
these are the five values `ComputeInteractionState` of the compass
distinguishes. -/
inductive vtkSliderRepresentation.InteractionStateType where
  | Outside
  | Tube
  | LeftCap
  | RightCap
  | Slider
  deriving DecidableEq, Repr

/-- Modelled from the spec: the slider sub-control
(`vtkCenteredSliderRepresentation`, whose code is not among the sources), with
its own minimum, maximum and value; the bounds form the interval `[min, max]`.
`Point1Coordinate` and `Point2Coordinate` are its two end points,
`HighlightState` the flag last passed to `Highlight`. -/
structure vtkCenteredSliderRepresentation where
  MinimumValue : ℚ
  MaximumValue : ℚ
  Value : ℚ
  HighlightState : ℤ
  Point1Coordinate : ℚ × ℚ
  Point2Coordinate : ℚ × ℚ
  deriving DecidableEq, Repr

namespace vtkCenteredSliderRepresentation

/-- Modelled from the spec: a slider as first created, before the compass
configures it (`vtkSliderRepresentation`'s constructor is not among the
sources; every field is overwritten or unused before it is read). -/
def New : vtkCenteredSliderRepresentation :=
  { MinimumValue := 0, MaximumValue := 1, Value := 0, HighlightState := 0,
    Point1Coordinate := (0, 0), Point2Coordinate := (0, 0) }

/-- Modelled from the spec: `GetMinimumValue` reads the slider's minimum. -/
def GetMinimumValue (r : vtkCenteredSliderRepresentation) : ℚ := r.MinimumValue

/-- Modelled from the spec: `GetMaximumValue` reads the slider's maximum. -/
def GetMaximumValue (r : vtkCenteredSliderRepresentation) : ℚ := r.MaximumValue

/-- Modelled from the spec: `GetValue` reads the slider's live value. -/
def GetValue (r : vtkCenteredSliderRepresentation) : ℚ := r.Value

/-- Modelled from the spec: `SetMinimumValue` of the slider sub-control (its
code is not among the sources).  The spec keeps the bounds as an interval
`[min, max]` into which the value is clamped, so the setter keeps the minimum
below the maximum: setting the minimum the slider already has changes nothing,
and a new minimum that reaches the maximum moves the maximum to
`minimum + 1`. -/
def SetMinimumValue (v : ℚ) (r : vtkCenteredSliderRepresentation) :
    vtkCenteredSliderRepresentation :=
  if v = r.MinimumValue then r
  else if v ≥ r.MaximumValue then { r with MinimumValue := v, MaximumValue := v + 1 }
  else { r with MinimumValue := v }

/-- Modelled from the spec: `SetMaximumValue` of the slider sub-control (its
code is not among the sources).  The spec keeps the bounds as an interval
`[min, max]` into which the value is clamped, so the setter keeps the minimum
below the maximum: setting the maximum the slider already has changes nothing,
and a new maximum that reaches the minimum moves the minimum to
`maximum - 1`. -/
def SetMaximumValue (v : ℚ) (r : vtkCenteredSliderRepresentation) :
    vtkCenteredSliderRepresentation :=
  if v = r.MaximumValue then r
  else if v ≤ r.MinimumValue then { r with MinimumValue := v - 1, MaximumValue := v }
  else { r with MaximumValue := v }

/-- Modelled from the spec: `SetValue` stores the value propagated by the
compass. -/
def SetValue (v : ℚ) (r : vtkCenteredSliderRepresentation) :
    vtkCenteredSliderRepresentation :=
  { r with Value := v }

/-- Modelled from the spec: `Highlight` receives the highlight flag propagated
by the compass. -/
def Highlight (highlight : ℤ) (r : vtkCenteredSliderRepresentation) :
    vtkCenteredSliderRepresentation :=
  { r with HighlightState := highlight }

end vtkCenteredSliderRepresentation

/-- The part of the attached `vtkRenderer` the compass reads: its size, the
modification time of its window (`none` when `GetVTKWindow()` is null), the
computed viewport values of the two anchor coordinates in this renderer, and the
interactor's last event position. -/
structure vtkRenderer where
  Size : ℤ × ℤ
  WindowMTime : Option ℕ
  Point1 : ℤ × ℤ
  Point2 : ℤ × ℤ
  LastEventPosition : ℤ × ℤ
  deriving DecidableEq, Repr

/-! ## The compass -/

/-- The `InteractionStateType` of the compass, as named in
`ComputeInteractionState`. -/
inductive InteractionStateType where
  | Outside
  | Inside
  | Adjusting
  | TiltDown
  | TiltUp
  | TiltAdjusting
  | DistanceOut
  | DistanceIn
  | DistanceAdjusting
  deriving DecidableEq, Repr

/-- Which of the two `vtkProperty2D` objects the ring actor currently uses. -/
inductive RingActorProperty where
  | RingProperty
  | SelectedProperty
  deriving DecidableEq, Repr

/-- The input string of the status text actor: the constructor's
`"0 Degrees"`, the empty string, or the text `GetStatusText` prints from the
distance, tilt and heading. -/
inductive StatusInput where
  | initial
  | empty
  | text (distance tilt heading : ℚ)
  deriving DecidableEq, Repr

/-- The transform `XForm` of the ring, as the arguments of the calls that
compose it: `Translate(tx, ty, 0)`, `Scale(s, s, 1)`, `RotateZ(deg)`. -/
structure RingTransform where
  Translate : ℤ × ℤ
  Scale : ℚ
  RotateZ : ℚ
  deriving DecidableEq, Repr

/-- The placement of the label "N": it sits at
`Center + Radius * (cos, sin)(Heading * pi / 180 + pi / 2)` and is turned by
`Orientation` degrees.  The position is kept in this polar form, the cosine and
sine not being rational. -/
structure LabelPlacement where
  Center : ℤ × ℤ
  Radius : ℚ
  Heading : ℚ
  Orientation : ℚ
  deriving DecidableEq, Repr

/-- The four points of the backdrop quad and the alpha of the colour tuple of
point 1. -/
structure BackdropGeometry where
  Point0 : ℚ × ℚ
  Point1 : ℚ × ℚ
  Point2 : ℚ × ℚ
  Point3 : ℚ × ℚ
  Alpha1 : ℕ
  deriving DecidableEq, Repr

/-- The fields of a `vtkCompassRepresentation` object. -/
structure vtkCompassRepresentation where
  Heading : ℚ
  Tilt : ℚ
  Distance : ℚ
  HighlightState : ℤ
  OuterRadius : ℚ
  InnerRadius : ℚ
  TiltRepresentation : vtkCenteredSliderRepresentation
  DistanceRepresentation : vtkCenteredSliderRepresentation
  RingActor : RingActorProperty
  InteractionState : InteractionStateType
  Renderer : Option vtkRenderer
  Visibility : Bool
  Clock : ℕ
  MTime : ℕ
  BuildTime : ℕ
  XForm : RingTransform
  LabelActor : LabelPlacement
  StatusActor : StatusInput
  StatusPosition : ℚ × ℚ
  Backdrop : BackdropGeometry
  deriving DecidableEq, Repr

/-- The conversion `static_cast<int>` of a `double`: truncation toward zero. -/
def truncate (q : ℚ) : ℤ := if 0 ≤ q then ⌊q⌋ else ⌈q⌉

/-- Rounding of a rational to the nearest integer, ties to the even one. -/
def roundHalfEven (q : ℚ) : ℤ :=
  if q - (⌊q⌋ : ℚ) < 1 / 2 then ⌊q⌋
  else if 1 / 2 < q - (⌊q⌋ : ℚ) then ⌊q⌋ + 1
  else if ⌊q⌋ % 2 = 0 then ⌊q⌋
  else ⌊q⌋ + 1

/-- The binary64 (`double`) result of an arithmetic operation whose exact result
is `q`: `q` rounded to the nearest number with 53 significant bits, ties to
even.  With `e = floor(log2 |q|)` the spacing of the doubles around `q` is
`2 ^ (e - 52)`.  The exponent range (overflow, subnormal numbers) is not
modelled: the definition is the rounding of the machine as long as the result is
a normal double (`2 ^ (-1022) <= |result| < 2 ^ 1024`). -/
def binary64 (q : ℚ) : ℚ :=
  if q = 0 then 0
  else (roundHalfEven (q / 2 ^ (Int.log 2 |q| - 52)) : ℚ) * 2 ^ (Int.log 2 |q| - 52)

/-- The test `sqrt(n) < b` for an integer `n ≥ 0`, decided exactly. -/
def sqrtLt (n : ℤ) (b : ℚ) : Bool := decide (0 < b ∧ (n : ℚ) < b * b)

/-- The test `sqrt(n) > a` for an integer `n ≥ 0`, decided exactly. -/
def sqrtGt (n : ℤ) (a : ℚ) : Bool := decide (a < 0 ∨ a * a < (n : ℚ))

namespace vtkCompassRepresentation

/-- The method `vtkObject::Modified`: stamps the object with a fresh time. -/
def Modified (s : vtkCompassRepresentation) : vtkCompassRepresentation :=
  { s with Clock := s.Clock + 1, MTime := s.Clock + 1 }

/-- The method `GetCenterAndUnitRadius`, from the computed viewport values
`p1`, `p2` of the two anchors and the highlight state. -/
def GetCenterAndUnitRadius (p1 p2 : ℤ × ℤ) (HighlightState : ℤ) : (ℤ × ℤ) × ℚ :=
  let radius : ℚ := ((|p1.1 - p2.1| : ℤ) : ℚ)
  let radius : ℚ :=
    if ((|p1.2 - p2.2| : ℤ) : ℚ) < radius then ((|p1.2 - p2.2| : ℤ) : ℚ) else radius
  let radius : ℚ := radius / 2
  -- scale the rsize between 100% and 50%
  let scale : ℚ := 1 - (radius - 40) / (radius + 100) * (1 / 2)
  let scale : ℚ := if scale > 1 then 1 else scale
  let radius : ℚ := radius * scale
  -- stick to the upper right
  let center : ℤ × ℤ := (truncate ((p2.1 : ℚ) - radius), truncate ((p2.2 : ℚ) - radius))
  if HighlightState = 0 then
    if scale < 9 / 10 then (center, radius * scale * scale) else (center, radius)
  else (center, radius)

/-- The method `GetStatusText`: the text printed from distance, tilt and
heading. -/
def GetStatusText (s : vtkCompassRepresentation) : StatusInput :=
  StatusInput.text s.Distance s.Tilt s.Heading

/-- The body of `BuildRepresentation` past its guards, for the attached
renderer `ren`.  The font sizes (which need `sin 18°`) and the sliders' own
`Modified` and `BuildRepresentation` are not part of the record. -/
def layout (ren : vtkRenderer) (s : vtkCompassRepresentation) : vtkCompassRepresentation :=
  let cr := GetCenterAndUnitRadius ren.Point1 ren.Point2 s.HighlightState
  let center := cr.1
  let rsize := cr.2
  let cx : ℚ := (center.1 : ℚ)
  let cy : ℚ := (center.2 : ℚ)
  let w : ℚ := (ren.Size.1 : ℚ)
  let h : ℚ := (ren.Size.2 : ℚ)
  { s with
    XForm := { Translate := center, Scale := rsize, RotateZ := s.Heading }
    LabelActor :=
      { Center := center, Radius := rsize * s.InnerRadius, Heading := s.Heading,
        Orientation := s.Heading }
    StatusActor := if rsize > 40 then GetStatusText s else StatusInput.empty
    StatusPosition := if rsize > 40 then (cx - rsize * 2, cy + rsize) else s.StatusPosition
    TiltRepresentation :=
      { s.TiltRepresentation with
        Point1Coordinate := (cx - rsize * (3 / 2), cy - rsize)
        Point2Coordinate := (cx - rsize * (6 / 5), cy + rsize) }
    DistanceRepresentation :=
      { s.DistanceRepresentation with
        Point1Coordinate := (cx - rsize * (19 / 10), cy - rsize)
        Point2Coordinate := (cx - rsize * (8 / 5), cy + rsize) }
    Backdrop :=
      if s.HighlightState ≠ 0 then
        { Point0 := (cx - rsize * 5, cy - rsize * (11 / 10))
          Point1 := (w, cy - rsize * (11 / 10))
          Point2 := (w, h)
          Point3 := (cx - rsize * 5, h)
          Alpha1 := 80 }
      else
        { Point0 := (cx - rsize * 3, cy - rsize * (11 / 10))
          Point1 := (w, cy - rsize * (11 / 10))
          Point2 := (w, h)
          Point3 := (cx - rsize * 3, h)
          Alpha1 := 0 }
    Clock := s.Clock + 1
    BuildTime := s.Clock + 1 }

/-- The window part of the time-stamp guard of `BuildRepresentation`: the
renderer has no window, or the window was not modified after `BuildTime`. -/
def windowNotModified (ren : vtkRenderer) (BuildTime : ℕ) : Bool :=
  match ren.WindowMTime with
  | none => true
  | some t => decide (t ≤ BuildTime)

/-- The method `BuildRepresentation`. -/
def BuildRepresentation (s : vtkCompassRepresentation) : vtkCompassRepresentation :=
  match s.Renderer with
  | none => s
  | some ren =>
    if s.Visibility = false then s
    else if s.MTime ≤ s.BuildTime ∧ windowNotModified ren s.BuildTime = true then s
    else if ren.Size.1 = 0 ∨ ren.Size.2 = 0 then s
    else layout ren s

/-- The method `GetHeading`. -/
def GetHeading (s : vtkCompassRepresentation) : ℚ := s.Heading

/-- The method `SetHeading`, in binary64: the quotient, the product and the
difference of line 529 are each rounded (`floor` of a double is exact). -/
def SetHeading (heading : ℚ) (s : vtkCompassRepresentation) : vtkCompassRepresentation :=
  -- ensure heading is in range [0, 360)
  let heading : ℚ :=
    if heading < 0 ∨ heading ≥ 360 then
      binary64 (heading - binary64 ((⌊binary64 (heading / 360)⌋ : ℚ) * 360))
    else heading
  if s.Heading ≠ heading then
    BuildRepresentation (Modified { s with Heading := heading })
  else s

/-- The method `GetTilt`. -/
def GetTilt (s : vtkCompassRepresentation) : ℚ := s.Tilt

/-- The method `SetTilt`. -/
def SetTilt (tilt : ℚ) (s : vtkCompassRepresentation) : vtkCompassRepresentation :=
  let tilt : ℚ :=
    max s.TiltRepresentation.GetMinimumValue (min tilt s.TiltRepresentation.GetMaximumValue)
  if s.Tilt ≠ tilt then
    let s := Modified { s with Tilt := tilt }
    { s with TiltRepresentation := s.TiltRepresentation.SetValue s.Tilt }
  else s

/-- The method `SetMaximumTiltAngle`. -/
def SetMaximumTiltAngle (angle : ℚ) (s : vtkCompassRepresentation) :
    vtkCompassRepresentation :=
  let s := { s with TiltRepresentation := s.TiltRepresentation.SetMaximumValue angle }
  -- to ensure tilt is within correct new range
  SetTilt s.Tilt s

/-- The method `GetMaximumTiltAngle`. -/
def GetMaximumTiltAngle (s : vtkCompassRepresentation) : ℚ :=
  s.TiltRepresentation.GetMaximumValue

/-- The method `SetMinimumTiltAngle`. -/
def SetMinimumTiltAngle (angle : ℚ) (s : vtkCompassRepresentation) :
    vtkCompassRepresentation :=
  let s := { s with TiltRepresentation := s.TiltRepresentation.SetMinimumValue angle }
  -- to ensure tilt is within correct new range
  SetTilt s.Tilt s

/-- The method `GetMinimumTiltAngle`. -/
def GetMinimumTiltAngle (s : vtkCompassRepresentation) : ℚ :=
  s.TiltRepresentation.GetMinimumValue

/-- The method `UpdateTilt`. -/
def UpdateTilt (deltaTilt : ℚ) (s : vtkCompassRepresentation) : vtkCompassRepresentation :=
  SetTilt (s.TiltRepresentation.GetValue + deltaTilt) s

/-- The method `EndTilt`. -/
def EndTilt (s : vtkCompassRepresentation) : vtkCompassRepresentation :=
  SetTilt s.TiltRepresentation.GetValue s

/-- The method `GetDistance`. -/
def GetDistance (s : vtkCompassRepresentation) : ℚ := s.Distance

/-- The method `SetDistance`. -/
def SetDistance (distance : ℚ) (s : vtkCompassRepresentation) : vtkCompassRepresentation :=
  let distance : ℚ :=
    max s.DistanceRepresentation.GetMinimumValue
      (min distance s.DistanceRepresentation.GetMaximumValue)
  if s.Distance ≠ distance then
    let s := Modified { s with Distance := distance }
    { s with DistanceRepresentation := s.DistanceRepresentation.SetValue s.Distance }
  else s

/-- The method `SetMaximumDistance`. -/
def SetMaximumDistance (distance : ℚ) (s : vtkCompassRepresentation) :
    vtkCompassRepresentation :=
  let s :=
    { s with DistanceRepresentation := s.DistanceRepresentation.SetMaximumValue distance }
  -- to ensure distance is within correct new range
  SetDistance s.Distance s

/-- The method `GetMaximumDistance`. -/
def GetMaximumDistance (s : vtkCompassRepresentation) : ℚ :=
  s.DistanceRepresentation.GetMaximumValue

/-- The method `SetMinimumDistance`. -/
def SetMinimumDistance (distance : ℚ) (s : vtkCompassRepresentation) :
    vtkCompassRepresentation :=
  let s :=
    { s with DistanceRepresentation := s.DistanceRepresentation.SetMinimumValue distance }
  -- to ensure distance is within correct new range
  SetDistance s.Distance s

/-- The method `GetMinimumDistance`. -/
def GetMinimumDistance (s : vtkCompassRepresentation) : ℚ :=
  s.DistanceRepresentation.GetMinimumValue

/-- The method `UpdateDistance`. -/
def UpdateDistance (deltaDistance : ℚ) (s : vtkCompassRepresentation) :
    vtkCompassRepresentation :=
  SetDistance (s.DistanceRepresentation.GetValue + deltaDistance) s

/-- The method `EndDistance`. -/
def EndDistance (s : vtkCompassRepresentation) : vtkCompassRepresentation :=
  SetDistance s.DistanceRepresentation.GetValue s

/-- The constructor: the state of a freshly constructed compass, not yet
attached to a renderer.  The backdrop is the unit quad of `BuildBackdrop`.  The
fields the base classes initialise (`InteractionState`, `Renderer`,
`Visibility`, the time stamps) and the text actor's position take the values of
a fresh object: state `Outside`, no renderer, visible, modified once and never
built. -/
def New : vtkCompassRepresentation :=
  let TiltRepresentation :=
    (((vtkCenteredSliderRepresentation.New).SetMinimumValue (-90)).SetMaximumValue 90).SetValue 0
  let DistanceRepresentation :=
    (((vtkCenteredSliderRepresentation.New).SetMinimumValue 0).SetMaximumValue 2).SetValue 1
  { Heading := 0
    Tilt := (1 / 2) * (TiltRepresentation.GetMaximumValue + TiltRepresentation.GetMinimumValue)
    Distance :=
      (1 / 2) *
        (DistanceRepresentation.GetMaximumValue + DistanceRepresentation.GetMinimumValue)
    HighlightState := 0
    OuterRadius := 9 / 10
    InnerRadius := 3 / 4
    TiltRepresentation := TiltRepresentation
    DistanceRepresentation := DistanceRepresentation
    RingActor := RingActorProperty.RingProperty
    InteractionState := InteractionStateType.Outside
    Renderer := none
    Visibility := true
    Clock := 1
    MTime := 1
    BuildTime := 0
    XForm := { Translate := (0, 0), Scale := 1, RotateZ := 0 }
    LabelActor := { Center := (0, 0), Radius := 0, Heading := 0, Orientation := 0 }
    StatusActor := StatusInput.initial
    StatusPosition := (0, 0)
    Backdrop :=
      { Point0 := (0, 0), Point1 := (1, 0), Point2 := (1, 1), Point3 := (0, 1), Alpha1 := 80 } }

/-- The operations through which tilt, distance and their bounds change. -/
inductive Operation where
  | SetTilt (tilt : ℚ)
  | SetDistance (distance : ℚ)
  | SetMinimumTiltAngle (angle : ℚ)
  | SetMaximumTiltAngle (angle : ℚ)
  | SetMinimumDistance (distance : ℚ)
  | SetMaximumDistance (distance : ℚ)
  | UpdateTilt (deltaTilt : ℚ)
  | UpdateDistance (deltaDistance : ℚ)
  | EndTilt
  | EndDistance
  deriving DecidableEq, Repr

/-- One call of the named member function. -/
def Operation.apply (s : vtkCompassRepresentation) : Operation → vtkCompassRepresentation
  | .SetTilt t => s.SetTilt t
  | .SetDistance d => s.SetDistance d
  | .SetMinimumTiltAngle a => s.SetMinimumTiltAngle a
  | .SetMaximumTiltAngle a => s.SetMaximumTiltAngle a
  | .SetMinimumDistance d => s.SetMinimumDistance d
  | .SetMaximumDistance d => s.SetMaximumDistance d
  | .UpdateTilt d => s.UpdateTilt d
  | .UpdateDistance d => s.UpdateDistance d
  | .EndTilt => s.EndTilt
  | .EndDistance => s.EndDistance

/-- The state after a sequence of calls, the first of the list first. -/
def run (ops : List Operation) (s : vtkCompassRepresentation) : vtkCompassRepresentation :=
  ops.foldl Operation.apply s

/-- The method `Highlight`. -/
def Highlight (highlight : ℤ) (s : vtkCompassRepresentation) : vtkCompassRepresentation :=
  if highlight = s.HighlightState then s
  else
    { s with
      HighlightState := highlight
      RingActor :=
        if highlight ≠ 0 then RingActorProperty.SelectedProperty
        else RingActorProperty.RingProperty
      TiltRepresentation := s.TiltRepresentation.Highlight highlight
      DistanceRepresentation := s.DistanceRepresentation.Highlight highlight }


/-- The method `ComputeInteractionState`; the value returned is the
`InteractionState` of the resulting state.  `sliderState r x y` stands for
`r->ComputeInteractionState(x, y, modify)` of a slider sub-control, whose code
is not among the sources.  The renderer is dereferenced without a test: there
is no result when none is attached. -/
def ComputeInteractionState
    (sliderState :
      vtkCenteredSliderRepresentation → ℤ → ℤ → vtkSliderRepresentation.InteractionStateType)
    (x y : ℤ) (s : vtkCompassRepresentation) : Option vtkCompassRepresentation :=
  match s.Renderer with
  | none => none
  | some ren =>
    if ren.Size.1 = 0 ∨ ren.Size.2 = 0 then
      -- Renderer has no size yet
      some { s with InteractionState := InteractionStateType.Outside }
    else
      -- is the pick on the ring?
      let cr := GetCenterAndUnitRadius ren.Point1 ren.Point2 s.HighlightState
      let center := cr.1
      let rsize := cr.2
      let radiusSq : ℤ := (x - center.1) * (x - center.1) + (y - center.2) * (y - center.2)
      if sqrtLt radiusSq (rsize * s.OuterRadius + 2) = true ∧
          sqrtGt radiusSq (rsize * s.InnerRadius - 2) = true then
        some { s with InteractionState := InteractionStateType.Adjusting }
      else
        -- on tilt?
        let tiltState := sliderState s.TiltRepresentation x y
        if tiltState ≠ vtkSliderRepresentation.InteractionStateType.Outside then
          match tiltState with
          | .LeftCap => some { s with InteractionState := InteractionStateType.TiltDown }
          | .RightCap => some { s with InteractionState := InteractionStateType.TiltUp }
          | .Slider => some { s with InteractionState := InteractionStateType.TiltAdjusting }
          | .Tube => some { s with InteractionState := InteractionStateType.TiltAdjusting }
          | .Outside => some s
        else
          -- on dist?
          let distanceState := sliderState s.DistanceRepresentation x y
          if distanceState ≠ vtkSliderRepresentation.InteractionStateType.Outside then
            match distanceState with
            | .LeftCap => some { s with InteractionState := InteractionStateType.DistanceIn }
            | .RightCap => some { s with InteractionState := InteractionStateType.DistanceOut }
            | .Slider =>
              some { s with InteractionState := InteractionStateType.DistanceAdjusting }
            | .Tube =>
              some { s with InteractionState := InteractionStateType.DistanceAdjusting }
            | .Outside => some s
          else if sqrtLt radiusSq (rsize * 3) = true then
            some { s with InteractionState := InteractionStateType.Inside }
          else some { s with InteractionState := InteractionStateType.Outside }

/-- Lines 786 to 839 of `ComputeInteractionState` (what the method does past
the size test), with the outcomes of its two comparisons of doubles as
parameters: `onRing` is the outcome of
`radius < rsize * OuterRadius + 2 && radius > rsize * InnerRadius - 2`, `inside`
that of `radius < rsize * 3.0`; `tiltState` and `distanceState` are what the two
sub-controls report for the pointer.  Nothing here depends on how the
comparisons are computed. -/
def InteractionStateFromTests (onRing : Bool)
    (tiltState distanceState : vtkSliderRepresentation.InteractionStateType) (inside : Bool)
    (s : vtkCompassRepresentation) : vtkCompassRepresentation :=
  -- is the pick on the ring?
  if onRing = true then { s with InteractionState := InteractionStateType.Adjusting }
  -- on tilt?
  else if tiltState ≠ vtkSliderRepresentation.InteractionStateType.Outside then
    match tiltState with
    | .LeftCap => { s with InteractionState := InteractionStateType.TiltDown }
    | .RightCap => { s with InteractionState := InteractionStateType.TiltUp }
    | .Slider => { s with InteractionState := InteractionStateType.TiltAdjusting }
    | .Tube => { s with InteractionState := InteractionStateType.TiltAdjusting }
    | .Outside => s
  -- on dist?
  else if distanceState ≠ vtkSliderRepresentation.InteractionStateType.Outside then
    match distanceState with
    | .LeftCap => { s with InteractionState := InteractionStateType.DistanceIn }
    | .RightCap => { s with InteractionState := InteractionStateType.DistanceOut }
    | .Slider => { s with InteractionState := InteractionStateType.DistanceAdjusting }
    | .Tube => { s with InteractionState := InteractionStateType.DistanceAdjusting }
    | .Outside => s
  else if inside = true then { s with InteractionState := InteractionStateType.Inside }
  else { s with InteractionState := InteractionStateType.Outside }

/-- Modelled from the spec: `vtkMath::Normalize` (not among the sources) on a
vector with third component 0, "normalized to unit vectors": the vector divided
by its Euclidean norm.  The products, the sum and the two quotients are rounded
to binary64; the library square root is the parameter `sqrt`. -/
def Normalize (sqrt : ℚ → ℚ) (v : ℚ × ℚ) : ℚ × ℚ :=
  let den := sqrt (binary64 (binary64 (v.1 * v.1) + binary64 (v.2 * v.2)))
  (binary64 (v.1 / den), binary64 (v.2 / den))

/-- The method `WidgetInteraction`, in binary64.  The library functions `sqrt`
and `atan2` and the constant `vtkMath::Pi()` are parameters; every operation the
method performs itself is rounded.  The renderer is dereferenced without a
test: there is no result when none is attached. -/
def WidgetInteraction (sqrt : ℚ → ℚ) (atan2 : ℚ → ℚ → ℚ) (Pi : ℚ) (eventPos : ℚ × ℚ)
    (s : vtkCompassRepresentation) : Option vtkCompassRepresentation :=
  match s.Renderer with
  | none => none
  | some ren =>
    -- adjust the value
    let center := (GetCenterAndUnitRadius ren.Point1 ren.Point2 s.HighlightState).1
    -- how far did we move?
    let mousePt : ℚ × ℚ :=
      ((ren.LastEventPosition.1 - center.1 : ℤ), (ren.LastEventPosition.2 - center.2 : ℤ))
    let mousePt := Normalize sqrt mousePt
    let angleRad1 := atan2 mousePt.2 mousePt.1
    let mousePt : ℚ × ℚ :=
      (binary64 (eventPos.1 - (center.1 : ℚ)), binary64 (eventPos.2 - (center.2 : ℚ)))
    let mousePt := Normalize sqrt mousePt
    let angleRad2 := atan2 mousePt.2 mousePt.1
    let angleRad2 := binary64 (angleRad2 - angleRad1)
    some (SetHeading (binary64 (s.Heading + binary64 (binary64 (angleRad2 * 180) / Pi))) s)

/-- A value `v` respects the bounds `lo`, `hi` as far as the clamp
`max(lo, min(_, hi))` can make it: it is not below `lo`, and not above `hi`
when the bounds are ordered. -/
def Clamped (lo hi v : ℚ) : Prop := lo ≤ v ∧ (lo ≤ hi → v ≤ hi)


/-- A renderer of 300 x 300 pixels in which the computed viewport values of the
two anchors are `(240, 240)` and `(297, 297)` (0.80 and 0.99 of the size), and
whose interactor last saw the pointer at `(288, 268)`. -/
def renderer300 : vtkRenderer :=
  { Size := (300, 300), WindowMTime := none, Point1 := (240, 240), Point2 := (297, 297),
    LastEventPosition := (288, 268) }

/-- A renderer that has no size yet. -/
def renderer0 : vtkRenderer :=
  { Size := (0, 0), WindowMTime := none, Point1 := (0, 0), Point2 := (0, 0),
    LastEventPosition := (0, 0) }


/-- The renderer of `renderer300` with the interactor's last event position at
`(270, 273)`. -/
def rendererDrag : vtkRenderer :=
  { Size := (300, 300), WindowMTime := none, Point1 := (240, 240), Point2 := (297, 297),
    LastEventPosition := (270, 273) }

/-- The doubles the library `sqrt` returns for 29 and 261 (the correctly rounded
square roots), as a function; other arguments do not occur in the drag from
`(270, 273)` to `(274, 283)` around the centre `(268, 268)`. -/
def sqrtOfDrag (x : ℚ) : ℚ :=
  if x = 29 then 6063156554684915 / 1125899906842624
  else if x = 261 then 2273683708006843 / 140737488355328
  else 0

/-- The doubles the library `atan2` returns for the two normalised vectors of
the drag from `(270, 273)` to `(274, 283)` around the centre `(268, 268)`:
`0x1.30b6d796a4da9p+0` for the first and `0x1.30b6d796a4da8p+0` for the
second. -/
def atan2OfDrag (y x : ℚ) : ℚ :=
  if y = 8362974558186091 / 9007199254740992 ∧ x = 836297455818609 / 2251799813685248 then
    5360589373853097 / 4503599627370496
  else if y = 8362974558186091 / 9007199254740992 ∧
      x = 6690379646548873 / 18014398509481984 then
    670073671731637 / 562949953421312
  else 0


/-- The parts of the compass that the rendering passes hand on to, named as the
members of the class. -/
inductive Part where
  | Backdrop
  | StatusActor
  | RingActor
  | LabelActor
  | TiltRepresentation
  | DistanceRepresentation
  deriving DecidableEq, Repr

/-- The test `strlen(this->StatusActor->GetInput())` of the render passes: the
input string of the status actor is not empty (`"0 Degrees"` and the text of
`GetStatusText`, which starts with `"Distance: "`, are not). -/
def strlenNonZero : StatusInput → Bool
  | .initial => true
  | .empty => false
  | .text _ _ _ => true

/-- One step of a render pass: the part `p` is handed the call, and what it
returns (`render p`) is added to the count. -/
def visit (render : Part → ℤ) (p : Part) (acc : List Part × ℤ) : List Part × ℤ :=
  (acc.1 ++ [p], acc.2 + render p)

/-- The method `GetActors`: the collection after the call, the parts in the
order they are added (a sub-control adds its own actors in its turn). -/
def GetActors (propCollection : List Part) (_s : vtkCompassRepresentation) : List Part :=
  propCollection ++
    [Part.Backdrop, Part.RingActor, Part.LabelActor, Part.StatusActor,
      Part.TiltRepresentation, Part.DistanceRepresentation]

/-- The method `ReleaseGraphicsResources`: the parts in the order in which they
are told to release. -/
def ReleaseGraphicsResources (_s : vtkCompassRepresentation) : List Part :=
  [Part.Backdrop, Part.RingActor, Part.LabelActor, Part.StatusActor,
    Part.TiltRepresentation, Part.DistanceRepresentation]

/-- The method `RenderOpaqueGeometry`: the state after the call, the parts in
the order in which they are rendered, and the count returned.  `render p` is
what `p->RenderOpaqueGeometry(viewport)` returns. -/
def RenderOpaqueGeometry (render : Part → ℤ) (s : vtkCompassRepresentation) :
    vtkCompassRepresentation × List Part × ℤ :=
  let s := BuildRepresentation s
  let count : List Part × ℤ := ([], 0)
  let count := visit render Part.Backdrop count
  let count :=
    if s.HighlightState ≠ 0 then
      if strlenNonZero s.StatusActor = true then visit render Part.StatusActor count else count
    else count
  let count := visit render Part.RingActor count
  let count := visit render Part.LabelActor count
  let count := visit render Part.TiltRepresentation count
  let count := visit render Part.DistanceRepresentation count
  (s, count.1, count.2)

/-- The method `RenderOverlay`: the state after the call, the parts in the order
in which they are rendered, and the count returned.  `render p` is what
`p->RenderOverlay(viewPort)` returns. -/
def RenderOverlay (render : Part → ℤ) (s : vtkCompassRepresentation) :
    vtkCompassRepresentation × List Part × ℤ :=
  let s := BuildRepresentation s
  let count : List Part × ℤ := ([], 0)
  let count := visit render Part.Backdrop count
  let count :=
    if s.HighlightState ≠ 0 then
      if strlenNonZero s.StatusActor = true then visit render Part.StatusActor count else count
    else count
  let count := visit render Part.RingActor count
  let count := visit render Part.LabelActor count
  let count := visit render Part.TiltRepresentation count
  let count := visit render Part.DistanceRepresentation count
  (s, count.1, count.2)

/-- The order of the parts as the specification states it for all four passes:
backdrop, the status text only when the compass is highlighted and the status
string is not empty, then ring, label, tilt sub-control, distance
sub-control. -/
def specifiedOrder (s : vtkCompassRepresentation) : List Part :=
  [Part.Backdrop] ++
    (if s.HighlightState ≠ 0 ∧ strlenNonZero s.StatusActor = true then [Part.StatusActor]
      else []) ++
    [Part.RingActor, Part.LabelActor, Part.TiltRepresentation, Part.DistanceRepresentation]


/-- The half extent from which `GetCenterAndUnitRadius` starts: half of the
smaller of the two axis-aligned extents between the anchors (the value of
`radius` after `radius /= 2`). -/
def halfExtent (p1 p2 : ℤ × ℤ) : ℚ :=
  let radius : ℚ := ((|p1.1 - p2.1| : ℤ) : ℚ)
  let radius : ℚ :=
    if ((|p1.2 - p2.2| : ℤ) : ℚ) < radius then ((|p1.2 - p2.2| : ℤ) : ℚ) else radius
  radius / 2

/-- The shrink factor `scale` of `GetCenterAndUnitRadius`, as a function of the
half extent `radius`. -/
def scale (radius : ℚ) : ℚ :=
  -- scale the rsize between 100% and 50%
  let scale : ℚ := 1 - (radius - 40) / (radius + 100) * (1 / 2)
  if scale > 1 then 1 else scale

/-- The coordinates `SetPoint` gives to a point of the ring: a point of the
circle of radius `radius` at `degrees` degrees, that is
`(radius * cos, radius * sin)` of the angle (kept in this polar form, the cosine
and sine not being rational), or a point given by its `x` and `y`. -/
inductive RingPoint where
  | polar (radius degrees : ℚ)
  | xy (x y : ℚ)
  deriving DecidableEq, Repr

/-- The number of points the constructor allocates for the ring,
`this->Points->SetNumberOfPoints(73)`. -/
def NumberOfPoints : ℤ := 73

/-- What `BuildRing` builds: the line cells and the marker polygons, each with
the size given to `InsertNextCell` and the point ids given to
`InsertCellPoint`, and the calls of `SetPoint` in order. -/
structure RingGeometry where
  Lines : List (ℤ × List ℤ)
  Polys : List (ℤ × List ℤ)
  SetPoint : List (ℤ × RingPoint)
  deriving DecidableEq, Repr

/-- The method `BuildRing`. -/
def BuildRing (OuterRadius InnerRadius : ℚ) : RingGeometry :=
  -- build the cells
  let ringCells : List (ℤ × List ℤ) :=
    (List.range 4).map fun i : ℕ =>
      (17,
        ((List.range 8).map fun j : ℕ => (i : ℤ) * 9 + (j : ℤ)) ++
          ((List.range 8).map fun j : ℕ => (i : ℤ) * 9 + 35 + 7 - (j : ℤ)) ++
          [(i : ℤ) * 9])
  -- add some polys
  let markCells : List (ℤ × List ℤ) :=
    [1, 2, 3].map fun i : ℤ => (3, [i + 69, i * 9 + 35, i * 9 + 33])
  -- build the points
  let points : List (ℤ × RingPoint) :=
    (List.range 35).flatMap fun i : ℕ =>
      [((i : ℤ), RingPoint.polar OuterRadius (10 * ((i : ℚ) + 10))),
        ((i : ℤ) + 35, RingPoint.polar InnerRadius (10 * ((i : ℚ) + 10)))]
  -- add the WSE points
  let points : List (ℤ × RingPoint) :=
    points ++
      [(70, RingPoint.xy (-OuterRadius - 1 / 10) 0),
        (71, RingPoint.xy 0 (-OuterRadius - 1 / 10)),
        (72, RingPoint.xy (OuterRadius + 1 / 10) 0)]
  { Lines := ringCells, Polys := markCells, SetPoint := points }


end vtkCompassRepresentation

open vtkCompassRepresentation

/-! ## Theorems -/

/-- The layout pass does not touch the heading. -/
theorem BuildRepresentation_Heading (s : vtkCompassRepresentation) :
    (BuildRepresentation s).Heading = s.Heading := by
  unfold BuildRepresentation
  split
  · rfl
  · split_ifs <;> rfl

/-- The exponent `floor(log2 r)` of a positive rational, from the two powers of
two that bracket it. -/
theorem Int_log_two_eq (r : ℚ) (e : ℤ) (h1 : (2 : ℚ) ^ e ≤ r) (h2 : r < (2 : ℚ) ^ (e + 1)) :
    Int.log 2 r = e := by
  have hr : 0 < r := lt_of_lt_of_le (zpow_pos (by norm_num) e) h1
  have hb : 1 < 2 := by norm_num
  apply le_antisymm
  · have h := (Int.lt_zpow_iff_log_lt (b := 2) hb hr (x := e + 1)).mp (by exact_mod_cast h2)
    omega
  · exact (Int.zpow_le_iff_le_log hb hr).mp (by exact_mod_cast h1)

/-- The two powers of two that bracket a non-zero rational. -/
theorem Int_log_two_bracket (q : ℚ) (hq : q ≠ 0) :
    (2 : ℚ) ^ Int.log 2 |q| ≤ |q| ∧ |q| < (2 : ℚ) ^ (Int.log 2 |q| + 1) := by
  have hr : 0 < |q| := abs_pos.mpr hq
  have h1 := Int.zpow_log_le_self (b := 2) (by norm_num) hr
  have h2 := Int.lt_zpow_succ_log_self (b := 2) (by norm_num) |q|
  exact ⟨by exact_mod_cast h1, by exact_mod_cast h2⟩

/-- `roundHalfEven` returns the floor or the floor plus one, the latter only
when the fractional part is at least one half. -/
theorem roundHalfEven_cases (x : ℚ) :
    roundHalfEven x = ⌊x⌋ ∨ (roundHalfEven x = ⌊x⌋ + 1 ∧ 1 / 2 ≤ x - (⌊x⌋ : ℚ)) := by
  unfold roundHalfEven
  split_ifs with h1 h2 h3
  · exact Or.inl rfl
  · exact Or.inr ⟨rfl, h2.le⟩
  · exact Or.inl rfl
  · exact Or.inr ⟨rfl, not_lt.mp h1⟩

/-- Rounding stays between two integers that bracket the number. -/
theorem roundHalfEven_between (x : ℚ) (a b : ℤ) (ha : (a : ℚ) ≤ x) (hb : x ≤ (b : ℚ)) :
    a ≤ roundHalfEven x ∧ roundHalfEven x ≤ b := by
  have hfa : a ≤ ⌊x⌋ := Int.le_floor.mpr ha
  have hfb : ⌊x⌋ ≤ b := by
    have : (⌊x⌋ : ℚ) ≤ (b : ℚ) := le_trans (Int.floor_le x) hb
    exact_mod_cast this
  rcases roundHalfEven_cases x with h | ⟨h, hfrac⟩
  · rw [h]; exact ⟨hfa, hfb⟩
  · rw [h]
    refine ⟨by omega, ?_⟩
    have hlt : (⌊x⌋ : ℚ) < (b : ℚ) := by linarith
    have : ⌊x⌋ < b := by exact_mod_cast hlt
    omega

/-- An integer rounds to itself. -/
theorem roundHalfEven_intCast (n : ℤ) : roundHalfEven (n : ℚ) = n := by
  unfold roundHalfEven
  rw [Int.floor_intCast]
  simp

/-- The value of `binary64` once the exponent is known. -/
theorem binary64_eq (q : ℚ) (e : ℤ) (h1 : (2 : ℚ) ^ e ≤ |q|) (h2 : |q| < (2 : ℚ) ^ (e + 1)) :
    binary64 q = (roundHalfEven (q / 2 ^ (e - 52)) : ℚ) * 2 ^ (e - 52) := by
  have hq : q ≠ 0 := by
    intro h
    rw [h, abs_zero] at h1
    exact absurd h1 (not_le.mpr (zpow_pos (by norm_num) e))
  unfold binary64
  rw [if_neg hq, Int_log_two_eq |q| e h1 h2]

/-- The binary64 value of a number lies between the doubles that bracket it. -/
theorem binary64_between (q : ℚ) (e a b : ℤ) (h1 : (2 : ℚ) ^ e ≤ |q|)
    (h2 : |q| < (2 : ℚ) ^ (e + 1)) (ha : (a : ℚ) ≤ q / 2 ^ (e - 52))
    (hb : q / 2 ^ (e - 52) ≤ (b : ℚ)) :
    (a : ℚ) * 2 ^ (e - 52) ≤ binary64 q ∧ binary64 q ≤ (b : ℚ) * 2 ^ (e - 52) := by
  have hpos : (0 : ℚ) < 2 ^ (e - 52) := zpow_pos (by norm_num) _
  obtain ⟨hA, hB⟩ := roundHalfEven_between _ a b ha hb
  rw [binary64_eq q e h1 h2]
  constructor
  · exact mul_le_mul_of_nonneg_right (by exact_mod_cast hA) hpos.le
  · exact mul_le_mul_of_nonneg_right (by exact_mod_cast hB) hpos.le

/-- A number `n * 2 ^ (e - 52)` with an integer `n` of 53 bits is a double: it
is its own binary64 value. -/
theorem binary64_exact (n e : ℤ) (h1 : (2 : ℚ) ^ (52 : ℕ) ≤ |(n : ℚ)|)
    (h2 : |(n : ℚ)| < (2 : ℚ) ^ (53 : ℕ)) :
    binary64 ((n : ℚ) * 2 ^ (e - 52)) = (n : ℚ) * 2 ^ (e - 52) := by
  have hpos : (0 : ℚ) < 2 ^ (e - 52) := zpow_pos (by norm_num) _
  have habs : |(n : ℚ) * 2 ^ (e - 52)| = |(n : ℚ)| * 2 ^ (e - 52) := by
    rw [abs_mul, abs_of_pos hpos]
  have e1 : (2 : ℚ) ^ e = 2 ^ (52 : ℕ) * 2 ^ (e - 52) := by
    rw [← zpow_natCast, ← zpow_add₀ (by norm_num : (2 : ℚ) ≠ 0)]
    congr 1; omega
  have e2 : (2 : ℚ) ^ (e + 1) = 2 ^ (53 : ℕ) * 2 ^ (e - 52) := by
    rw [← zpow_natCast, ← zpow_add₀ (by norm_num : (2 : ℚ) ≠ 0)]
    congr 1; omega
  rw [binary64_eq _ e (by rw [habs, e1]; exact mul_le_mul_of_nonneg_right h1 hpos.le)
    (by rw [habs, e2]; exact mul_lt_mul_of_pos_right h2 hpos)]
  rw [mul_div_assoc, div_self hpos.ne', mul_one, roundHalfEven_intCast]

/-- A negative number above -1 has a binary64 value in `[-1, 0)`. -/
theorem binary64_small_negative (q : ℚ) (h1 : -1 < q) (h2 : q < 0) :
    -1 ≤ binary64 q ∧ binary64 q < 0 := by
  have hq : q ≠ 0 := h2.ne
  obtain ⟨hlo, hhi⟩ := Int_log_two_bracket q hq
  have habs : |q| = -q := abs_of_neg h2
  have hlt1 : |q| < (2 : ℚ) ^ (0 : ℤ) := by rw [habs]; norm_num; linarith
  have he : Int.log 2 |q| < 0 :=
    (Int.lt_zpow_iff_log_lt (b := 2) (by norm_num) (abs_pos.mpr hq)).mp (by exact_mod_cast hlt1)
  generalize Int.log 2 |q| = e at hlo hhi he
  have hpos : (0 : ℚ) < 2 ^ (e - 52) := zpow_pos (by norm_num) _
  have e1 : (2 : ℚ) ^ e = 2 ^ (52 : ℕ) * 2 ^ (e - 52) := by
    rw [← zpow_natCast, ← zpow_add₀ (by norm_num : (2 : ℚ) ≠ 0)]
    congr 1; omega
  have e2 : (2 : ℚ) ^ (e + 1) = 2 ^ (53 : ℕ) * 2 ^ (e - 52) := by
    rw [← zpow_natCast, ← zpow_add₀ (by norm_num : (2 : ℚ) ≠ 0)]
    congr 1; omega
  have hle1 : (2 : ℚ) ^ (e + 1) ≤ 1 := zpow_le_one_of_nonpos₀ (by norm_num) (by omega)
  rw [habs] at hlo hhi
  have ha : (((-(2 ^ 53) : ℤ)) : ℚ) ≤ q / 2 ^ (e - 52) := by
    rw [le_div_iff₀ hpos]
    push_cast
    rw [e2] at hhi
    linarith
  have hb : q / 2 ^ (e - 52) ≤ (((-(2 ^ 52) : ℤ)) : ℚ) := by
    rw [div_le_iff₀ hpos]
    push_cast
    rw [e1] at hlo
    linarith
  have h := binary64_between q e (-(2 ^ 53)) (-(2 ^ 52)) (by rw [habs]; exact hlo)
    (by rw [habs]; exact hhi) ha hb
  push_cast at h
  constructor
  · rw [e2] at hle1
    linarith [h.1]
  · have : (0 : ℚ) < 2 ^ (52 : ℕ) * 2 ^ (e - 52) := mul_pos (by norm_num) hpos
    linarith [h.2]

/-- The numbers from `360 - 2 ^ (-45)` up to 360 all have the binary64 value
360: the doubles just below 360 are `2 ^ (-44)` apart, and the tie goes to the
even neighbour 360. -/
theorem binary64_just_below_360 (z : ℚ) (h1 : 360 - 1 / 2 ^ 45 ≤ z) (h2 : z < 360) :
    binary64 z = 360 := by
  have hz : 0 < z := by
    have : (0 : ℚ) < 360 - 1 / 2 ^ 45 := by norm_num
    linarith
  have habs : |z| = z := abs_of_pos hz
  have hp : (2 : ℚ) ^ ((8 : ℤ) - 52) = 1 / 2 ^ 44 := by
    rw [show ((8 : ℤ) - 52) = -(44 : ℕ) by norm_num, zpow_neg, zpow_natCast]; norm_num
  have hlo : (2 : ℚ) ^ (8 : ℤ) ≤ |z| := by
    rw [habs]
    have : (2 : ℚ) ^ (8 : ℤ) = 256 := by norm_num
    rw [this]
    have : (256 : ℚ) ≤ 360 - 1 / 2 ^ 45 := by norm_num
    linarith
  have hhi : |z| < (2 : ℚ) ^ ((8 : ℤ) + 1) := by
    rw [habs]
    have : (2 : ℚ) ^ ((8 : ℤ) + 1) = 512 := by norm_num
    rw [this]; linarith
  rw [binary64_eq z 8 hlo hhi, hp]
  have hx1 : ((6333186975989759 : ℤ) : ℚ) + 1 / 2 ≤ z / (1 / 2 ^ 44) := by
    rw [le_div_iff₀ (by norm_num)]
    push_cast
    have : ((6333186975989759 : ℚ) + 1 / 2) * (1 / 2 ^ 44) = 360 - 1 / 2 ^ 45 := by norm_num
    linarith
  have hx2 : z / (1 / 2 ^ 44) < ((6333186975989759 : ℤ) : ℚ) + 1 := by
    rw [div_lt_iff₀ (by norm_num)]
    push_cast
    have : ((6333186975989759 : ℚ) + 1) * (1 / 2 ^ 44) = 360 := by norm_num
    linarith
  have hfloor : ⌊z / (1 / 2 ^ 44)⌋ = 6333186975989759 := by
    rw [Int.floor_eq_iff]
    exact ⟨by linarith, hx2⟩
  have hround : roundHalfEven (z / (1 / 2 ^ 44)) = 6333186975989760 := by
    unfold roundHalfEven
    rw [hfloor]
    have hnot : ¬ (z / (1 / 2 ^ 44) - ((6333186975989759 : ℤ) : ℚ) < 1 / 2) := by
      rw [not_lt]; linarith
    rw [if_neg hnot]
    split_ifs with h3 h4
    · norm_num
    · norm_num at h4
    · norm_num
  rw [hround]
  norm_num

/-- A number that is `n * 2 ^ (e - 52)` for an integer `n` of 53 bits is its own
binary64 value. -/
theorem binary64_of_double (x : ℚ) (n e : ℤ) (hx : x = (n : ℚ) * 2 ^ (e - 52))
    (h1 : (2 : ℚ) ^ (52 : ℕ) ≤ |(n : ℚ)|) (h2 : |(n : ℚ)| < (2 : ℚ) ^ (53 : ℕ)) :
    binary64 x = x := by
  rw [hx]
  exact binary64_exact n e h1 h2

/-- The heading stored by `SetHeading`, whatever the previous state. -/
theorem SetHeading_Heading (h : ℚ) (s : vtkCompassRepresentation) :
    (SetHeading h s).Heading =
      if h < 0 ∨ h ≥ 360 then
        binary64 (h - binary64 ((⌊binary64 (h / 360)⌋ : ℚ) * 360))
      else h := by
  unfold SetHeading
  simp only []
  split_ifs with h1 h2 h2
  · rw [BuildRepresentation_Heading]; rfl
  · exact not_not.mp h2
  · rw [BuildRepresentation_Heading]; rfl
  · exact not_not.mp h2

/-- The doubles -360, 350, 360, 10, 2 and 720 are their own binary64 values. -/
theorem binary64_constants :
    binary64 (-360) = -360 ∧ binary64 350 = 350 ∧ binary64 360 = 360 ∧ binary64 10 = 10 ∧
      binary64 2 = 2 ∧ binary64 720 = 720 := by
  refine ⟨?_, ?_, ?_, ?_, ?_, ?_⟩
  · exact binary64_of_double _ (-(360 * 2 ^ 44)) 8 (by norm_num) (by norm_num) (by norm_num)
  · exact binary64_of_double _ (350 * 2 ^ 44) 8 (by norm_num) (by norm_num) (by norm_num)
  · exact binary64_of_double _ (360 * 2 ^ 44) 8 (by norm_num) (by norm_num) (by norm_num)
  · exact binary64_of_double _ (10 * 2 ^ 49) 3 (by norm_num) (by norm_num) (by norm_num)
  · exact binary64_of_double _ (2 ^ 52) 1 (by norm_num) (by norm_num) (by norm_num)
  · exact binary64_of_double _ (720 * 2 ^ 43) 9 (by norm_num) (by norm_num) (by norm_num)

/-- In binary64 every heading `h` with `-2 ^ (-45) <= h <= -2 ^ (-1000)` is
stored as 360: the quotient `h / 360` has floor -1, and `h + 360` is rounded to
the double 360.  (The lower limit on the size of `h` keeps `h / 360` a normal
double, where `binary64` is the rounding of the machine.) -/
theorem GetHeading_SetHeading_just_below_zero (h : ℚ) (s : vtkCompassRepresentation)
    (h1 : -(1 / 2 ^ 45) ≤ h) (h2' : h ≤ -(1 / 2 ^ 1000)) :
    GetHeading (SetHeading h s) = 360 := by
  have h2 : h < 0 := lt_of_le_of_lt h2' (by norm_num)
  have hq1 : -1 < h / 360 := by
    rw [lt_div_iff₀ (by norm_num)]
    have : (-1 : ℚ) * 360 < -(1 / 2 ^ 45) := by norm_num
    linarith
  have hq2 : h / 360 < 0 := div_neg_of_neg_of_pos h2 (by norm_num)
  obtain ⟨hy1, hy2⟩ := binary64_small_negative (h / 360) hq1 hq2
  have hfloor : ⌊binary64 (h / 360)⌋ = -1 := by
    rw [Int.floor_eq_iff]
    constructor
    · push_cast; exact hy1
    · push_cast; linarith
  unfold GetHeading
  rw [SetHeading_Heading, if_pos (Or.inl h2), hfloor]
  have e1 : (((-1 : ℤ)) : ℚ) * 360 = -360 := by norm_num
  rw [e1, binary64_constants.1]
  exact binary64_just_below_360 _ (by linarith) (by linarith)

/-- C1: `SetHeading` does not always leave `GetHeading()` in `[0, 360)`,
although its comment says so.  For every heading `h` with
`-2 ^ (-45) <= h <= -2 ^ (-1000)` (such as -1e-20) the quotient `h / 360` has
floor -1, the difference `h + 360` is rounded to the double 360, and
`GetHeading()` returns 360, whatever the state. -/
theorem C1_SetHeading_stores_360 (h : ℚ) (s : vtkCompassRepresentation)
    (h1 : -(1 / 2 ^ 45) ≤ h) (h2 : h ≤ -(1 / 2 ^ 1000)) :
    GetHeading (SetHeading h s) = 360 ∧ ¬ GetHeading (SetHeading h s) < 360 := by
  have key := GetHeading_SetHeading_just_below_zero h s h1 h2
  exact ⟨key, by rw [key]; norm_num⟩

/-- C1 at the heading -1e-20 on the freshly constructed compass: `GetHeading()`
returns 360. -/
theorem C1_SetHeading_stores_360_witness :
    GetHeading (SetHeading (-(1 / 10 ^ 20)) New) = 360 :=
  (C1_SetHeading_stores_360 (-(1 / 10 ^ 20)) New (by norm_num) (by norm_num)).1

/-- The examples of the specification evaluate as stated in binary64:
`SetHeading(-10)` gives 350, `SetHeading(370)` gives 10, `SetHeading(720)`
gives 0, and a heading already in `[0, 360)` is stored as it is. -/
theorem SetHeading_examples (s : vtkCompassRepresentation) :
    GetHeading (SetHeading (-10) s) = 350 ∧ GetHeading (SetHeading 370 s) = 10 ∧
      GetHeading (SetHeading 720 s) = 0 ∧
      ∀ h : ℚ, 0 ≤ h → h < 360 → GetHeading (SetHeading h s) = h := by
  refine ⟨?_, ?_, ?_, ?_⟩
  · obtain ⟨hy1, hy2⟩ := binary64_small_negative (-10 / 360) (by norm_num) (by norm_num)
    have hfloor : ⌊binary64 (-10 / 360)⌋ = -1 := by
      rw [Int.floor_eq_iff]
      constructor
      · push_cast; exact hy1
      · push_cast; linarith
    unfold GetHeading
    rw [SetHeading_Heading, if_pos (Or.inl (by norm_num)), hfloor]
    have e1 : (((-1 : ℤ)) : ℚ) * 360 = -360 := by norm_num
    have e2 : (-10 : ℚ) - -360 = 350 := by norm_num
    rw [e1, binary64_constants.1, e2, binary64_constants.2.1]
  · have hb := binary64_between (370 / 360) 0 (2 ^ 52) (2 ^ 53 - 1)
      (by rw [abs_of_pos (by norm_num)]; norm_num)
      (by rw [abs_of_pos (by norm_num)]; norm_num) (by norm_num) (by norm_num)
    have hfloor : ⌊binary64 (370 / 360)⌋ = 1 := by
      rw [Int.floor_eq_iff]
      constructor
      · have := hb.1; norm_num at this; push_cast; linarith
      · have := hb.2; norm_num at this; push_cast; linarith
    unfold GetHeading
    rw [SetHeading_Heading, if_pos (Or.inr (by norm_num)), hfloor]
    have e1 : (((1 : ℤ)) : ℚ) * 360 = 360 := by norm_num
    have e2 : (370 : ℚ) - 360 = 10 := by norm_num
    rw [e1, binary64_constants.2.2.1, e2, binary64_constants.2.2.2.1]
  · unfold GetHeading
    rw [SetHeading_Heading, if_pos (Or.inr (by norm_num))]
    have e0 : (720 : ℚ) / 360 = 2 := by norm_num
    have e1 : ((⌊(2 : ℚ)⌋ : ℤ) : ℚ) * 360 = 720 := by
      rw [show ⌊(2 : ℚ)⌋ = 2 from Int.floor_eq_iff.mpr ⟨by norm_num, by norm_num⟩]; norm_num
    rw [e0, binary64_constants.2.2.2.2.1, e1, binary64_constants.2.2.2.2.2, sub_self]
    unfold binary64
    rw [if_pos rfl]
  · intro h h0 h360
    unfold GetHeading
    rw [SetHeading_Heading, if_neg]
    rintro (hlt | hge)
    · exact absurd h0 (not_le.mpr hlt)
    · exact absurd h360 (not_lt.mpr hge)

/-- The tilt stored by `SetTilt` is the clamp computed from the bounds of the
tilt slider, whether or not it differs from the previous tilt. -/
theorem SetTilt_Tilt (t : ℚ) (s : vtkCompassRepresentation) :
    (SetTilt t s).Tilt =
      max s.TiltRepresentation.MinimumValue (min t s.TiltRepresentation.MaximumValue) := by
  unfold SetTilt
  simp only [vtkCenteredSliderRepresentation.GetMinimumValue,
    vtkCenteredSliderRepresentation.GetMaximumValue]
  split_ifs with h
  · rfl
  · exact not_not.mp h

/-- The slider bounds are not touched by `SetTilt`. -/
theorem SetTilt_bounds (t : ℚ) (s : vtkCompassRepresentation) :
    (SetTilt t s).TiltRepresentation.MinimumValue = s.TiltRepresentation.MinimumValue ∧
      (SetTilt t s).TiltRepresentation.MaximumValue = s.TiltRepresentation.MaximumValue := by
  unfold SetTilt
  simp only []
  split_ifs with h
  · exact ⟨rfl, rfl⟩
  · exact ⟨rfl, rfl⟩

/-- The distance stored by `SetDistance` is the clamp computed from the bounds
of the distance slider. -/
theorem SetDistance_Distance (d : ℚ) (s : vtkCompassRepresentation) :
    (SetDistance d s).Distance =
      max s.DistanceRepresentation.MinimumValue
        (min d s.DistanceRepresentation.MaximumValue) := by
  unfold SetDistance
  simp only [vtkCenteredSliderRepresentation.GetMinimumValue,
    vtkCenteredSliderRepresentation.GetMaximumValue]
  split_ifs with h
  · rfl
  · exact not_not.mp h

/-- The slider bounds are not touched by `SetDistance`. -/
theorem SetDistance_bounds (d : ℚ) (s : vtkCompassRepresentation) :
    (SetDistance d s).DistanceRepresentation.MinimumValue =
        s.DistanceRepresentation.MinimumValue ∧
      (SetDistance d s).DistanceRepresentation.MaximumValue =
        s.DistanceRepresentation.MaximumValue := by
  unfold SetDistance
  simp only []
  split_ifs with h
  · exact ⟨rfl, rfl⟩
  · exact ⟨rfl, rfl⟩

/-- C2: for every tilt value `t` and every state, after `SetTilt(t)` the value
returned by `GetTilt()` is `t` clamped by the bounds of the tilt sub-control,
`max(minimum, min(t, maximum))`, and the bounds are unchanged; when the bounds
are ordered the result lies in `[minimum, maximum]`, is `t` itself for `t`
inside, the minimum for `t` below and the maximum for `t` above; with the
bounds `[-90, 90]`, `SetTilt(200)` gives 90 and `SetTilt(-200)` gives -90. -/
theorem C2_SetTilt_clamps (t : ℚ) (s : vtkCompassRepresentation) :
    GetTilt (SetTilt t s) = max (GetMinimumTiltAngle s) (min t (GetMaximumTiltAngle s)) ∧
      GetMinimumTiltAngle (SetTilt t s) = GetMinimumTiltAngle s ∧
      GetMaximumTiltAngle (SetTilt t s) = GetMaximumTiltAngle s ∧
      (GetMinimumTiltAngle s ≤ GetMaximumTiltAngle s →
        GetMinimumTiltAngle s ≤ GetTilt (SetTilt t s) ∧
        GetTilt (SetTilt t s) ≤ GetMaximumTiltAngle s ∧
        (GetMinimumTiltAngle s ≤ t → t ≤ GetMaximumTiltAngle s → GetTilt (SetTilt t s) = t) ∧
        (t < GetMinimumTiltAngle s → GetTilt (SetTilt t s) = GetMinimumTiltAngle s) ∧
        (GetMaximumTiltAngle s < t → GetTilt (SetTilt t s) = GetMaximumTiltAngle s)) ∧
      (GetMinimumTiltAngle s = -90 → GetMaximumTiltAngle s = 90 →
        GetTilt (SetTilt 200 s) = 90 ∧ GetTilt (SetTilt (-200) s) = -90) := by
  simp only [GetTilt, GetMinimumTiltAngle, GetMaximumTiltAngle, SetTilt_Tilt,
    vtkCenteredSliderRepresentation.GetMinimumValue,
    vtkCenteredSliderRepresentation.GetMaximumValue, (SetTilt_bounds t s).1,
    (SetTilt_bounds t s).2]
  refine ⟨trivial, trivial, trivial, ?_, ?_⟩
  · intro hle
    refine ⟨le_max_left _ _, max_le hle (min_le_right _ _), ?_, ?_, ?_⟩
    · intro h1 h2
      rw [min_eq_left h2, max_eq_right h1]
    · intro h1
      rw [min_eq_left (le_trans h1.le hle), max_eq_left h1.le]
    · intro h1
      rw [min_eq_right h1.le, max_eq_right hle]
  · intro h1 h2
    rw [h1, h2]
    constructor <;> norm_num

/-- C2 at the freshly constructed compass, whose tilt bounds are `[-90, 90]`:
the bounds are ordered, and `SetTilt(200)` gives 90, `SetTilt(-200)` gives
-90. -/
theorem C2_SetTilt_clamps_witness :
    GetMinimumTiltAngle New ≤ GetMaximumTiltAngle New ∧
      GetTilt (SetTilt 200 New) = 90 ∧ GetTilt (SetTilt (-200) New) = -90 ∧
      GetTilt (SetTilt 45 New) = 45 :=
  have hmin : GetMinimumTiltAngle New = -90 := rfl
  have hmax : GetMaximumTiltAngle New = 90 := rfl
  have hle : GetMinimumTiltAngle New ≤ GetMaximumTiltAngle New := by
    rw [hmin, hmax]; norm_num
  ⟨hle, ((C2_SetTilt_clamps 0 New).2.2.2.2 hmin hmax).1,
    ((C2_SetTilt_clamps 0 New).2.2.2.2 hmin hmax).2,
    ((C2_SetTilt_clamps 45 New).2.2.2.1 hle).2.2.1 (by rw [hmin]; norm_num)
      (by rw [hmax]; norm_num)⟩

/-- The concrete bounds and values of the freshly constructed compass. -/
theorem New_values :
    New.Tilt = 0 ∧ New.TiltRepresentation.MinimumValue = -90 ∧
      New.TiltRepresentation.MaximumValue = 90 ∧ New.TiltRepresentation.Value = 0 ∧
      New.Distance = 1 ∧ New.DistanceRepresentation.MinimumValue = 0 ∧
      New.DistanceRepresentation.MaximumValue = 2 ∧ New.DistanceRepresentation.Value = 1 := by
  refine ⟨?_, rfl, rfl, rfl, ?_, rfl, rfl, rfl⟩
  · show (1 / 2 : ℚ) * (90 + -90) = 0
    norm_num
  · show (1 / 2 : ℚ) * (2 + 0) = 1
    norm_num

/-- What `SetMaximumValue` does to the bounds of a slider with ordered bounds:
the maximum is the new one and the minimum does not exceed it. -/
theorem SetMaximumValue_bounds (v : ℚ) (r : vtkCenteredSliderRepresentation)
    (h : r.MinimumValue ≤ r.MaximumValue) :
    (r.SetMaximumValue v).MaximumValue = v ∧ (r.SetMaximumValue v).MinimumValue ≤ v := by
  unfold vtkCenteredSliderRepresentation.SetMaximumValue
  split_ifs with h1 h2
  · rw [h1]; exact ⟨rfl, h⟩
  · exact ⟨rfl, by show v - 1 ≤ v; linarith⟩
  · exact ⟨rfl, (not_le.mp h2).le⟩

/-- What `SetMinimumValue` does to the bounds of a slider with ordered bounds:
the minimum is the new one and the maximum is not below it. -/
theorem SetMinimumValue_bounds (v : ℚ) (r : vtkCenteredSliderRepresentation)
    (h : r.MinimumValue ≤ r.MaximumValue) :
    (r.SetMinimumValue v).MinimumValue = v ∧ v ≤ (r.SetMinimumValue v).MaximumValue := by
  unfold vtkCenteredSliderRepresentation.SetMinimumValue
  split_ifs with h1 h2
  · rw [h1]; exact ⟨rfl, h⟩
  · exact ⟨rfl, by show v ≤ v + 1; linarith⟩
  · exact ⟨rfl, (not_le.mp h2).le⟩

/-- The tilt after `SetMaximumTiltAngle`: the old tilt clamped by the bounds the
slider has after `SetMaximumValue`. -/
theorem SetMaximumTiltAngle_Tilt (a : ℚ) (s : vtkCompassRepresentation) :
    (SetMaximumTiltAngle a s).Tilt =
      max (s.TiltRepresentation.SetMaximumValue a).MinimumValue
        (min s.Tilt (s.TiltRepresentation.SetMaximumValue a).MaximumValue) := by
  unfold SetMaximumTiltAngle
  simp only [SetTilt_Tilt]

/-- The tilt after `SetMinimumTiltAngle`: the old tilt clamped by the bounds the
slider has after `SetMinimumValue`. -/
theorem SetMinimumTiltAngle_Tilt (a : ℚ) (s : vtkCompassRepresentation) :
    (SetMinimumTiltAngle a s).Tilt =
      max (s.TiltRepresentation.SetMinimumValue a).MinimumValue
        (min s.Tilt (s.TiltRepresentation.SetMinimumValue a).MaximumValue) := by
  unfold SetMinimumTiltAngle
  simp only [SetTilt_Tilt]

/-- C3: for every state (the bounds of the tilt sub-control forming an
interval, minimum <= maximum) and every angle `a` strictly below the current
tilt, after `SetMaximumTiltAngle(a)` the maximum is `a` and the current tilt
returned by `GetTilt()` equals the new maximum `a`. -/
theorem C3_SetMaximumTiltAngle_reclamps (a : ℚ) (s : vtkCompassRepresentation)
    (hb : GetMinimumTiltAngle s ≤ GetMaximumTiltAngle s) (ha : a < GetTilt s) :
    GetTilt (SetMaximumTiltAngle a s) = a ∧
      GetMaximumTiltAngle (SetMaximumTiltAngle a s) = a ∧
      GetMinimumTiltAngle (SetMaximumTiltAngle a s) ≤ a := by
  have hb' : s.TiltRepresentation.MinimumValue ≤ s.TiltRepresentation.MaximumValue := hb
  have ha' : a ≤ s.Tilt := ha.le
  obtain ⟨hmax, hmin⟩ := SetMaximumValue_bounds a s.TiltRepresentation hb'
  have hbounds := SetTilt_bounds s.Tilt
    { s with TiltRepresentation := s.TiltRepresentation.SetMaximumValue a }
  refine ⟨?_, ?_, ?_⟩
  · unfold GetTilt
    rw [SetMaximumTiltAngle_Tilt, hmax, min_eq_right ha', max_eq_right hmin]
  · show (SetMaximumTiltAngle a s).TiltRepresentation.MaximumValue = a
    unfold SetMaximumTiltAngle
    rw [hbounds.2]
    exact hmax
  · show (SetMaximumTiltAngle a s).TiltRepresentation.MinimumValue ≤ a
    unfold SetMaximumTiltAngle
    rw [hbounds.1]
    exact hmin

/-- C3 on the freshly constructed compass (tilt 0, bounds `[-90, 90]`): -100 is
below the tilt, and after `SetMaximumTiltAngle(-100)` the tilt is -100; so is it
after `SetMaximumTiltAngle(-45)`, which stays above the minimum. -/
theorem C3_SetMaximumTiltAngle_reclamps_witness :
    GetMinimumTiltAngle New ≤ GetMaximumTiltAngle New ∧ (-100 : ℚ) < GetTilt New ∧
      GetTilt (SetMaximumTiltAngle (-100) New) = -100 ∧
      GetTilt (SetMaximumTiltAngle (-45) New) = -45 :=
  have hb : GetMinimumTiltAngle New ≤ GetMaximumTiltAngle New := by
    show New.TiltRepresentation.MinimumValue ≤ New.TiltRepresentation.MaximumValue
    rw [New_values.2.1, New_values.2.2.1]; norm_num
  have h1 : (-100 : ℚ) < GetTilt New := by
    unfold GetTilt; rw [New_values.1]; norm_num
  have h2 : (-45 : ℚ) < GetTilt New := by
    unfold GetTilt; rw [New_values.1]; norm_num
  ⟨hb, h1, (C3_SetMaximumTiltAngle_reclamps (-100) New hb h1).1,
    (C3_SetMaximumTiltAngle_reclamps (-45) New hb h2).1⟩

/-- `SetTilt` leaves the distance and its slider alone. -/
theorem SetTilt_frame (t : ℚ) (s : vtkCompassRepresentation) :
    (SetTilt t s).Distance = s.Distance ∧
      (SetTilt t s).DistanceRepresentation = s.DistanceRepresentation := by
  unfold SetTilt
  simp only []
  split_ifs with h
  · exact ⟨rfl, rfl⟩
  · exact ⟨rfl, rfl⟩

/-- `SetDistance` leaves the tilt and its slider alone. -/
theorem SetDistance_frame (d : ℚ) (s : vtkCompassRepresentation) :
    (SetDistance d s).Tilt = s.Tilt ∧
      (SetDistance d s).TiltRepresentation = s.TiltRepresentation := by
  unfold SetDistance
  simp only []
  split_ifs with h
  · exact ⟨rfl, rfl⟩
  · exact ⟨rfl, rfl⟩

/-- After `SetTilt`, whatever the state before, the tilt respects the bounds of
the tilt slider. -/
theorem SetTilt_Clamped (t : ℚ) (s : vtkCompassRepresentation) :
    Clamped (SetTilt t s).TiltRepresentation.MinimumValue
      (SetTilt t s).TiltRepresentation.MaximumValue (SetTilt t s).Tilt := by
  rw [(SetTilt_bounds t s).1, (SetTilt_bounds t s).2, SetTilt_Tilt]
  exact ⟨le_max_left _ _, fun hle => max_le hle (min_le_right _ _)⟩

/-- After `SetDistance`, whatever the state before, the distance respects the
bounds of the distance slider. -/
theorem SetDistance_Clamped (d : ℚ) (s : vtkCompassRepresentation) :
    Clamped (SetDistance d s).DistanceRepresentation.MinimumValue
      (SetDistance d s).DistanceRepresentation.MaximumValue (SetDistance d s).Distance := by
  rw [(SetDistance_bounds d s).1, (SetDistance_bounds d s).2, SetDistance_Distance]
  exact ⟨le_max_left _ _, fun hle => max_le hle (min_le_right _ _)⟩

/-- Each of the ten operations keeps tilt and distance within the reach of
their clamps. -/
theorem Operation_apply_Clamped (op : Operation) (s : vtkCompassRepresentation)
    (hT : Clamped s.TiltRepresentation.MinimumValue s.TiltRepresentation.MaximumValue s.Tilt)
    (hD : Clamped s.DistanceRepresentation.MinimumValue s.DistanceRepresentation.MaximumValue
      s.Distance) :
    Clamped (op.apply s).TiltRepresentation.MinimumValue
        (op.apply s).TiltRepresentation.MaximumValue (op.apply s).Tilt ∧
      Clamped (op.apply s).DistanceRepresentation.MinimumValue
        (op.apply s).DistanceRepresentation.MaximumValue (op.apply s).Distance := by
  have tiltOp : ∀ (t : ℚ) (s' : vtkCompassRepresentation),
      s'.Distance = s.Distance → s'.DistanceRepresentation = s.DistanceRepresentation →
      Clamped (SetTilt t s').TiltRepresentation.MinimumValue
          (SetTilt t s').TiltRepresentation.MaximumValue (SetTilt t s').Tilt ∧
        Clamped (SetTilt t s').DistanceRepresentation.MinimumValue
          (SetTilt t s').DistanceRepresentation.MaximumValue (SetTilt t s').Distance := by
    intro t s' h1 h2
    refine ⟨SetTilt_Clamped t s', ?_⟩
    rw [(SetTilt_frame t s').1, (SetTilt_frame t s').2, h1, h2]
    exact hD
  have distOp : ∀ (d : ℚ) (s' : vtkCompassRepresentation),
      s'.Tilt = s.Tilt → s'.TiltRepresentation = s.TiltRepresentation →
      Clamped (SetDistance d s').TiltRepresentation.MinimumValue
          (SetDistance d s').TiltRepresentation.MaximumValue (SetDistance d s').Tilt ∧
        Clamped (SetDistance d s').DistanceRepresentation.MinimumValue
          (SetDistance d s').DistanceRepresentation.MaximumValue
          (SetDistance d s').Distance := by
    intro d s' h1 h2
    refine ⟨?_, SetDistance_Clamped d s'⟩
    rw [(SetDistance_frame d s').1, (SetDistance_frame d s').2, h1, h2]
    exact hT
  cases op with
  | SetTilt t => exact tiltOp t s rfl rfl
  | SetDistance d => exact distOp d s rfl rfl
  | SetMinimumTiltAngle a => exact tiltOp _ _ rfl rfl
  | SetMaximumTiltAngle a => exact tiltOp _ _ rfl rfl
  | SetMinimumDistance d => exact distOp _ _ rfl rfl
  | SetMaximumDistance d => exact distOp _ _ rfl rfl
  | UpdateTilt d => exact tiltOp _ s rfl rfl
  | UpdateDistance d => exact distOp _ s rfl rfl
  | EndTilt => exact tiltOp _ s rfl rfl
  | EndDistance => exact distOp _ s rfl rfl

/-- Any sequence of the ten operations keeps tilt and distance within the reach
of their clamps. -/
theorem run_Clamped (ops : List Operation) :
    ∀ s : vtkCompassRepresentation,
      Clamped s.TiltRepresentation.MinimumValue s.TiltRepresentation.MaximumValue s.Tilt →
      Clamped s.DistanceRepresentation.MinimumValue s.DistanceRepresentation.MaximumValue
        s.Distance →
      Clamped (run ops s).TiltRepresentation.MinimumValue
          (run ops s).TiltRepresentation.MaximumValue (run ops s).Tilt ∧
        Clamped (run ops s).DistanceRepresentation.MinimumValue
          (run ops s).DistanceRepresentation.MaximumValue (run ops s).Distance := by
  induction ops with
  | nil => intro s hT hD; exact ⟨hT, hD⟩
  | cons op rest ih =>
    intro s hT hD
    have h := Operation_apply_Clamped op s hT hD
    exact ih (op.apply s) h.1 h.2

/-- Each of the ten operations keeps the bounds of both sliders ordered. -/
theorem Operation_apply_ordered (op : Operation) (s : vtkCompassRepresentation)
    (hT : s.TiltRepresentation.MinimumValue ≤ s.TiltRepresentation.MaximumValue)
    (hD : s.DistanceRepresentation.MinimumValue ≤ s.DistanceRepresentation.MaximumValue) :
    (op.apply s).TiltRepresentation.MinimumValue ≤
        (op.apply s).TiltRepresentation.MaximumValue ∧
      (op.apply s).DistanceRepresentation.MinimumValue ≤
        (op.apply s).DistanceRepresentation.MaximumValue := by
  have tiltOp : ∀ (t : ℚ) (s' : vtkCompassRepresentation),
      s'.TiltRepresentation.MinimumValue ≤ s'.TiltRepresentation.MaximumValue →
      s'.DistanceRepresentation = s.DistanceRepresentation →
      (SetTilt t s').TiltRepresentation.MinimumValue ≤
          (SetTilt t s').TiltRepresentation.MaximumValue ∧
        (SetTilt t s').DistanceRepresentation.MinimumValue ≤
          (SetTilt t s').DistanceRepresentation.MaximumValue := by
    intro t s' h1 h2
    rw [(SetTilt_bounds t s').1, (SetTilt_bounds t s').2, (SetTilt_frame t s').2, h2]
    exact ⟨h1, hD⟩
  have distOp : ∀ (d : ℚ) (s' : vtkCompassRepresentation),
      s'.DistanceRepresentation.MinimumValue ≤ s'.DistanceRepresentation.MaximumValue →
      s'.TiltRepresentation = s.TiltRepresentation →
      (SetDistance d s').TiltRepresentation.MinimumValue ≤
          (SetDistance d s').TiltRepresentation.MaximumValue ∧
        (SetDistance d s').DistanceRepresentation.MinimumValue ≤
          (SetDistance d s').DistanceRepresentation.MaximumValue := by
    intro d s' h1 h2
    rw [(SetDistance_bounds d s').1, (SetDistance_bounds d s').2, (SetDistance_frame d s').2,
      h2]
    exact ⟨hT, h1⟩
  cases op with
  | SetTilt t => exact tiltOp t s hT rfl
  | SetDistance d => exact distOp d s hD rfl
  | SetMinimumTiltAngle a =>
    have h := SetMinimumValue_bounds a s.TiltRepresentation hT
    exact tiltOp _ { s with TiltRepresentation := s.TiltRepresentation.SetMinimumValue a }
      (by rw [h.1]; exact h.2) rfl
  | SetMaximumTiltAngle a =>
    have h := SetMaximumValue_bounds a s.TiltRepresentation hT
    exact tiltOp _ { s with TiltRepresentation := s.TiltRepresentation.SetMaximumValue a }
      (by rw [h.1]; exact h.2) rfl
  | SetMinimumDistance d =>
    have h := SetMinimumValue_bounds d s.DistanceRepresentation hD
    exact distOp _
      { s with DistanceRepresentation := s.DistanceRepresentation.SetMinimumValue d }
      (by rw [h.1]; exact h.2) rfl
  | SetMaximumDistance d =>
    have h := SetMaximumValue_bounds d s.DistanceRepresentation hD
    exact distOp _
      { s with DistanceRepresentation := s.DistanceRepresentation.SetMaximumValue d }
      (by rw [h.1]; exact h.2) rfl
  | UpdateTilt d => exact tiltOp _ s hT rfl
  | UpdateDistance d => exact distOp _ s hD rfl
  | EndTilt => exact tiltOp _ s hT rfl
  | EndDistance => exact distOp _ s hD rfl

/-- Any sequence of the ten operations keeps the bounds of both sliders
ordered. -/
theorem run_ordered (ops : List Operation) :
    ∀ s : vtkCompassRepresentation,
      s.TiltRepresentation.MinimumValue ≤ s.TiltRepresentation.MaximumValue →
      s.DistanceRepresentation.MinimumValue ≤ s.DistanceRepresentation.MaximumValue →
      (run ops s).TiltRepresentation.MinimumValue ≤
          (run ops s).TiltRepresentation.MaximumValue ∧
        (run ops s).DistanceRepresentation.MinimumValue ≤
          (run ops s).DistanceRepresentation.MaximumValue := by
  induction ops with
  | nil => intro s hT hD; exact ⟨hT, hD⟩
  | cons op rest ih =>
    intro s hT hD
    have h := Operation_apply_ordered op s hT hD
    exact ih (op.apply s) h.1 h.2

/-- C4: in every state reachable from the constructed defaults by any sequence
of `SetTilt`, `SetDistance`, `SetMinimumTiltAngle`, `SetMaximumTiltAngle`,
`SetMinimumDistance`, `SetMaximumDistance`, `UpdateTilt`, `UpdateDistance`,
`EndTilt` and `EndDistance`, the stored tilt satisfies
`GetMinimumTiltAngle() <= GetTilt() <= GetMaximumTiltAngle()` and the stored
distance satisfies `GetMinimumDistance() <= GetDistance() <= GetMaximumDistance()`. -/
theorem C4_bounds_invariant (ops : List Operation) :
    GetMinimumTiltAngle (run ops New) ≤ GetTilt (run ops New) ∧
      GetTilt (run ops New) ≤ GetMaximumTiltAngle (run ops New) ∧
      GetMinimumDistance (run ops New) ≤ GetDistance (run ops New) ∧
      GetDistance (run ops New) ≤ GetMaximumDistance (run ops New) := by
  have h0T : Clamped New.TiltRepresentation.MinimumValue New.TiltRepresentation.MaximumValue
      New.Tilt := by
    rw [New_values.1, New_values.2.1, New_values.2.2.1]
    exact ⟨by norm_num, fun _ => by norm_num⟩
  have h0D : Clamped New.DistanceRepresentation.MinimumValue
      New.DistanceRepresentation.MaximumValue New.Distance := by
    rw [New_values.2.2.2.2.1, New_values.2.2.2.2.2.1, New_values.2.2.2.2.2.2.1]
    exact ⟨by norm_num, fun _ => by norm_num⟩
  have hoT : New.TiltRepresentation.MinimumValue ≤ New.TiltRepresentation.MaximumValue := by
    rw [New_values.2.1, New_values.2.2.1]; norm_num
  have hoD : New.DistanceRepresentation.MinimumValue ≤
      New.DistanceRepresentation.MaximumValue := by
    rw [New_values.2.2.2.2.2.1, New_values.2.2.2.2.2.2.1]; norm_num
  have h := run_Clamped ops New h0T h0D
  have ho := run_ordered ops New hoT hoD
  exact ⟨h.1.1, h.1.2 ho.1, h.2.1, h.2.2 ho.2⟩

/-- The exact test `sqrtLt` is the comparison `sqrt(n) < b` of real numbers. -/
theorem sqrtLt_iff (n : ℤ) (b : ℚ) :
    sqrtLt n b = true ↔ Real.sqrt (n : ℝ) < (b : ℝ) := by
  unfold sqrtLt
  rw [decide_eq_true_eq]
  constructor
  · rintro ⟨hb, h⟩
    have hb' : (0 : ℝ) < (b : ℝ) := by exact_mod_cast hb
    rw [Real.sqrt_lt' hb', sq]
    exact_mod_cast h
  · intro h
    have hb' : (0 : ℝ) < (b : ℝ) := lt_of_le_of_lt (Real.sqrt_nonneg _) h
    rw [Real.sqrt_lt' hb', sq] at h
    exact ⟨by exact_mod_cast hb', by exact_mod_cast h⟩

/-- The exact test `sqrtGt` is the comparison `sqrt(n) > a` of real numbers. -/
theorem sqrtGt_iff (n : ℤ) (a : ℚ) :
    sqrtGt n a = true ↔ (a : ℝ) < Real.sqrt (n : ℝ) := by
  unfold sqrtGt
  rw [decide_eq_true_eq]
  by_cases ha : a < 0
  · have ha' : (a : ℝ) < 0 := by exact_mod_cast ha
    exact ⟨fun _ => lt_of_lt_of_le ha' (Real.sqrt_nonneg _), fun _ => Or.inl ha⟩
  · have ha0 : (0 : ℝ) ≤ (a : ℝ) := by exact_mod_cast not_lt.mp ha
    rw [Real.lt_sqrt ha0, sq]
    constructor
    · rintro (h | h)
      · exact absurd h ha
      · exact_mod_cast h
    · intro h
      exact Or.inr (by exact_mod_cast h)

/-- The dial of the default anchors on a 300 x 300 renderer: centre
`(268, 268)`, radius 28.5. -/
theorem GetCenterAndUnitRadius_renderer300 :
    GetCenterAndUnitRadius (240, 240) (297, 297) 0 = ((268, 268), 57 / 2) := by
  have hf : ⌊(537 / 2 : ℚ)⌋ = 268 := by
    rw [Int.floor_eq_iff]; constructor <;> norm_num
  have ht : truncate (537 / 2) = 268 := by
    unfold truncate
    rw [if_pos (by norm_num), hf]
  simp only [GetCenterAndUnitRadius]
  norm_num
  exact ht

/-- C5: on an attached renderer of non-zero size, for every pointer `(x, y)`
whose distance `d` from the dial centre returned by `GetCenterAndUnitRadius`
satisfies `rsize * InnerRadius - 2 < d < rsize * OuterRadius + 2`,
`ComputeInteractionState(x, y)` stores and returns `Adjusting`, whatever the
tilt and distance sub-controls would report (`sliderState` is arbitrary). -/
theorem C5_annulus_Adjusting
    (sliderState :
      vtkCenteredSliderRepresentation → ℤ → ℤ → vtkSliderRepresentation.InteractionStateType)
    (x y : ℤ) (s : vtkCompassRepresentation) (ren : vtkRenderer)
    (hren : s.Renderer = some ren) (hw : ren.Size.1 ≠ 0) (hh : ren.Size.2 ≠ 0)
    (hlo :
      (((GetCenterAndUnitRadius ren.Point1 ren.Point2 s.HighlightState).2 * s.InnerRadius - 2 :
          ℚ) : ℝ) <
        Real.sqrt
          (((x - (GetCenterAndUnitRadius ren.Point1 ren.Point2 s.HighlightState).1.1) ^ 2 +
              (y - (GetCenterAndUnitRadius ren.Point1 ren.Point2 s.HighlightState).1.2) ^ 2 :
            ℤ) : ℝ))
    (hhi :
      Real.sqrt
          (((x - (GetCenterAndUnitRadius ren.Point1 ren.Point2 s.HighlightState).1.1) ^ 2 +
              (y - (GetCenterAndUnitRadius ren.Point1 ren.Point2 s.HighlightState).1.2) ^ 2 :
            ℤ) : ℝ) <
        (((GetCenterAndUnitRadius ren.Point1 ren.Point2 s.HighlightState).2 * s.OuterRadius + 2 :
          ℚ) : ℝ)) :
    ComputeInteractionState sliderState x y s =
      some { s with InteractionState := InteractionStateType.Adjusting } := by
  rw [← sqrtGt_iff] at hlo
  rw [← sqrtLt_iff] at hhi
  simp only [sq] at hlo hhi
  unfold ComputeInteractionState
  rw [hren]
  simp only []
  rw [if_neg (by rintro (h | h); exact hw h; exact hh h), if_pos ⟨hhi, hlo⟩]

/-- C5 on the 300 x 300 renderer: the dial centre is `(268, 268)` and its
radius 28.5, the pointer `(288, 268)` lies at distance 20, between
`28.5 * 0.75 - 2` and `28.5 * 0.9 + 2`, and the state is `Adjusting` even when
both sub-controls report `Slider`. -/
theorem C5_annulus_Adjusting_witness :
    ComputeInteractionState (fun _ _ _ => vtkSliderRepresentation.InteractionStateType.Slider)
        288 268 { New with Renderer := some renderer300 } =
      some { New with Renderer := some renderer300,
                      InteractionState := InteractionStateType.Adjusting } := by
  have hc : GetCenterAndUnitRadius renderer300.Point1 renderer300.Point2
      ({ New with Renderer := some renderer300 } : vtkCompassRepresentation).HighlightState =
      ((268, 268), 57 / 2) := GetCenterAndUnitRadius_renderer300
  have hd : Real.sqrt (((288 - 268) ^ 2 + (268 - 268) ^ 2 : ℤ) : ℝ) = 20 := by
    rw [show (((288 - 268) ^ 2 + (268 - 268) ^ 2 : ℤ) : ℝ) = (20 : ℝ) ^ 2 by norm_num]
    exact Real.sqrt_sq (by norm_num)
  exact C5_annulus_Adjusting _ 288 268 { New with Renderer := some renderer300 } renderer300 rfl
    (by decide) (by decide)
    (by
      rw [hc]
      show (((57 / 2 * (3 / 4) - 2 : ℚ)) : ℝ) < Real.sqrt (((288 - 268) ^ 2 + (268 - 268) ^ 2 : ℤ) : ℝ)
      rw [hd]; norm_num)
    (by
      rw [hc]
      show Real.sqrt (((288 - 268) ^ 2 + (268 - 268) ^ 2 : ℤ) : ℝ) < (((57 / 2 * (9 / 10) + 2 : ℚ)) : ℝ)
      rw [hd]; norm_num)

/-- C6: if the width or the height of the attached renderer is 0,
`ComputeInteractionState(x, y)` stores and returns `Outside` for every pointer
position; the result does not depend on the anchors, on the pointer or on what
the sub-controls would report. -/
theorem C6_zero_size_Outside
    (sliderState :
      vtkCenteredSliderRepresentation → ℤ → ℤ → vtkSliderRepresentation.InteractionStateType)
    (x y : ℤ) (s : vtkCompassRepresentation) (ren : vtkRenderer)
    (hren : s.Renderer = some ren) (hsize : ren.Size.1 = 0 ∨ ren.Size.2 = 0) :
    ComputeInteractionState sliderState x y s =
      some { s with InteractionState := InteractionStateType.Outside } := by
  unfold ComputeInteractionState
  rw [hren]
  simp only []
  rw [if_pos hsize]

/-- C6 on a renderer of size 0 x 0: a pointer at `(5, 7)` is `Outside` even
when both sub-controls would report `Slider`. -/
theorem C6_zero_size_Outside_witness :
    ComputeInteractionState (fun _ _ _ => vtkSliderRepresentation.InteractionStateType.Slider)
        5 7 { New with Renderer := some renderer0 } =
      some { New with Renderer := some renderer0,
                      InteractionState := InteractionStateType.Outside } :=
  C6_zero_size_Outside _ 5 7 { New with Renderer := some renderer0 } renderer0 rfl (Or.inl rfl)

/-- The value held by the distance slider after `SetDistance`: the clamped
distance when it differs from the stored one, the old slider value
otherwise. -/
theorem SetDistance_Value (d : ℚ) (s : vtkCompassRepresentation) :
    (SetDistance d s).DistanceRepresentation.Value =
      if s.Distance ≠
          max s.DistanceRepresentation.MinimumValue
            (min d s.DistanceRepresentation.MaximumValue) then
        max s.DistanceRepresentation.MinimumValue (min d s.DistanceRepresentation.MaximumValue)
      else s.DistanceRepresentation.Value := by
  unfold SetDistance
  simp only [vtkCenteredSliderRepresentation.GetMinimumValue,
    vtkCenteredSliderRepresentation.GetMaximumValue]
  split_ifs with h
  · rfl
  · rfl

/-- C7: the freshly constructed compass has distance 1 and distance bounds
`[0, 2]`; for every delta `d`, `UpdateDistance(d)` followed by `EndDistance()`
leaves `GetDistance()` equal to `1 + d` clamped into `[0, 2]`, and for
`d = 0.5` that is 1.5. -/
theorem C7_UpdateDistance_EndDistance (d : ℚ) :
    GetDistance New = 1 ∧ GetMinimumDistance New = 0 ∧ GetMaximumDistance New = 2 ∧
      GetDistance (EndDistance (UpdateDistance d New)) = max 0 (min (1 + d) 2) ∧
      GetDistance (EndDistance (UpdateDistance (1 / 2) New)) = 3 / 2 := by
  have key : ∀ x : ℚ,
      GetDistance (EndDistance (UpdateDistance x New)) = max 0 (min (1 + x) 2) := by
    intro x
    have hU : UpdateDistance x New = SetDistance (1 + x) New := by
      unfold UpdateDistance
      rw [show New.DistanceRepresentation.GetValue = 1 from New_values.2.2.2.2.2.2.2]
    have h0 : (0 : ℚ) ≤ max 0 (min (1 + x) 2) := le_max_left _ _
    have h2 : max 0 (min (1 + x) 2) ≤ (2 : ℚ) := max_le (by norm_num) (min_le_right _ _)
    have hV : (SetDistance (1 + x) New).DistanceRepresentation.Value =
        max 0 (min (1 + x) 2) := by
      rw [SetDistance_Value, New_values.2.2.2.2.1, New_values.2.2.2.2.2.1,
        New_values.2.2.2.2.2.2.1, New_values.2.2.2.2.2.2.2]
      split_ifs with h
      · rfl
      · exact not_not.mp h
    unfold GetDistance EndDistance
    rw [hU, SetDistance_Distance, (SetDistance_bounds _ _).1, (SetDistance_bounds _ _).2,
      New_values.2.2.2.2.2.1, New_values.2.2.2.2.2.2.1]
    show max 0 (min (SetDistance (1 + x) New).DistanceRepresentation.Value 2) = _
    rw [hV, min_eq_left h2, max_eq_right h0]
  refine ⟨New_values.2.2.2.2.1, New_values.2.2.2.2.2.1, New_values.2.2.2.2.2.2.1, key d, ?_⟩
  rw [key]
  norm_num

/-- A number within half a unit of an integer rounds to that integer. -/
theorem roundHalfEven_near (x : ℚ) (n : ℤ) (h1 : (n : ℚ) - 1 / 2 < x)
    (h2 : x < (n : ℚ) + 1 / 2) : roundHalfEven x = n := by
  have hfl : n - 1 ≤ ⌊x⌋ := Int.le_floor.mpr (by push_cast; linarith)
  have hfu : ⌊x⌋ ≤ n := by
    have : ⌊x⌋ < n + 1 := Int.floor_lt.mpr (by push_cast; linarith)
    omega
  have hle := Int.floor_le x
  have hlt := Int.lt_floor_add_one x
  rcases (by omega : ⌊x⌋ = n ∨ ⌊x⌋ = n - 1) with h | h
  · unfold roundHalfEven
    rw [h]
    rw [if_pos (by linarith)]
  · unfold roundHalfEven
    rw [h]
    have hc : ((n - 1 : ℤ) : ℚ) = (n : ℚ) - 1 := by push_cast; ring
    rw [if_neg (by rw [hc]; linarith), if_pos (by rw [hc]; linarith)]
    ring

/-- The binary64 value of a number whose exponent is `e` and which lies within
half a spacing of the double `n * 2 ^ (e - 52)`. -/
theorem binary64_near (q r : ℚ) (e n : ℤ) (hr : r = (n : ℚ) * 2 ^ (e - 52))
    (h1 : (2 : ℚ) ^ e ≤ |q|) (h2 : |q| < (2 : ℚ) ^ (e + 1))
    (h3 : (n : ℚ) - 1 / 2 < q / 2 ^ (e - 52)) (h4 : q / 2 ^ (e - 52) < (n : ℚ) + 1 / 2) :
    binary64 q = r := by
  rw [binary64_eq q e h1 h2, roundHalfEven_near _ n h3 h4, hr]

/-- The small integers that occur in the drag are doubles. -/
theorem binary64_small_integers :
    binary64 4 = 4 ∧ binary64 25 = 25 ∧ binary64 29 = 29 ∧ binary64 6 = 6 ∧ binary64 15 = 15 ∧
      binary64 36 = 36 ∧ binary64 225 = 225 ∧ binary64 261 = 261 := by
  refine ⟨?_, ?_, ?_, ?_, ?_, ?_, ?_, ?_⟩
  · exact binary64_of_double _ 4503599627370496 2 (by norm_num) (by norm_num) (by norm_num)
  · exact binary64_of_double _ 7036874417766400 4 (by norm_num) (by norm_num) (by norm_num)
  · exact binary64_of_double _ 8162774324609024 4 (by norm_num) (by norm_num) (by norm_num)
  · exact binary64_of_double _ 6755399441055744 2 (by norm_num) (by norm_num) (by norm_num)
  · exact binary64_of_double _ 8444249301319680 3 (by norm_num) (by norm_num) (by norm_num)
  · exact binary64_of_double _ 5066549580791808 5 (by norm_num) (by norm_num) (by norm_num)
  · exact binary64_of_double _ 7916483719987200 7 (by norm_num) (by norm_num) (by norm_num)
  · exact binary64_of_double _ 4591560557592576 8 (by norm_num) (by norm_num) (by norm_num)

/-- The vector `(2, 5)` normalised in binary64, given the double the library
returns for `sqrt(29)`. -/
theorem Normalize_2_5 (sqrt : ℚ → ℚ)
    (hsqrt : sqrt 29 = 6063156554684915 / 1125899906842624) :
    Normalize sqrt (2, 5) =
      (836297455818609 / 2251799813685248, 8362974558186091 / 9007199254740992) := by
  have e1 : (2 : ℚ) * 2 = 4 := by norm_num
  have e2 : (5 : ℚ) * 5 = 25 := by norm_num
  have e3 : (4 : ℚ) + 25 = 29 := by norm_num
  have q1 : binary64 (2 / (6063156554684915 / 1125899906842624)) =
      836297455818609 / 2251799813685248 :=
    binary64_near _ _ (-2) 6690379646548872 (by norm_num)
      (by rw [abs_of_pos (by norm_num)]; norm_num) (by rw [abs_of_pos (by norm_num)]; norm_num)
      (by norm_num) (by norm_num)
  have q2 : binary64 (5 / (6063156554684915 / 1125899906842624)) =
      8362974558186091 / 9007199254740992 :=
    binary64_near _ _ (-1) 8362974558186091 (by norm_num)
      (by rw [abs_of_pos (by norm_num)]; norm_num) (by rw [abs_of_pos (by norm_num)]; norm_num)
      (by norm_num) (by norm_num)
  unfold Normalize
  simp only []
  rw [e1, e2, binary64_small_integers.1, binary64_small_integers.2.1, e3,
    binary64_small_integers.2.2.1, hsqrt, q1, q2]

/-- The vector `(6, 15)` normalised in binary64, given the double the library
returns for `sqrt(261)`. -/
theorem Normalize_6_15 (sqrt : ℚ → ℚ)
    (hsqrt : sqrt 261 = 2273683708006843 / 140737488355328) :
    Normalize sqrt (6, 15) =
      (6690379646548873 / 18014398509481984, 8362974558186091 / 9007199254740992) := by
  have e1 : (6 : ℚ) * 6 = 36 := by norm_num
  have e2 : (15 : ℚ) * 15 = 225 := by norm_num
  have e3 : (36 : ℚ) + 225 = 261 := by norm_num
  have q1 : binary64 (6 / (2273683708006843 / 140737488355328)) =
      6690379646548873 / 18014398509481984 :=
    binary64_near _ _ (-2) 6690379646548873 (by norm_num)
      (by rw [abs_of_pos (by norm_num)]; norm_num) (by rw [abs_of_pos (by norm_num)]; norm_num)
      (by norm_num) (by norm_num)
  have q2 : binary64 (15 / (2273683708006843 / 140737488355328)) =
      8362974558186091 / 9007199254740992 :=
    binary64_near _ _ (-1) 8362974558186091 (by norm_num)
      (by rw [abs_of_pos (by norm_num)]; norm_num) (by rw [abs_of_pos (by norm_num)]; norm_num)
      (by norm_num) (by norm_num)
  unfold Normalize
  simp only []
  rw [e1, e2, binary64_small_integers.2.2.2.2.2.1, binary64_small_integers.2.2.2.2.2.2.1, e3,
    binary64_small_integers.2.2.2.2.2.2.2, hsqrt, q1, q2]

/-- The two doubles of `sqrtOfDrag` are the correctly rounded square roots: the
real square roots of 29 and 261 lie within half a spacing (`2 ^ (-51)` and
`2 ^ (-49)`) of them. -/
theorem sqrtOfDrag_correctly_rounded :
    (((sqrtOfDrag 29 - 1 / 2 ^ 51 : ℚ)) : ℝ) < Real.sqrt 29 ∧
      Real.sqrt 29 < (((sqrtOfDrag 29 + 1 / 2 ^ 51 : ℚ)) : ℝ) ∧
      (((sqrtOfDrag 261 - 1 / 2 ^ 49 : ℚ)) : ℝ) < Real.sqrt 261 ∧
      Real.sqrt 261 < (((sqrtOfDrag 261 + 1 / 2 ^ 49 : ℚ)) : ℝ) := by
  have h29 : sqrtOfDrag 29 = 6063156554684915 / 1125899906842624 := by
    unfold sqrtOfDrag; rw [if_pos rfl]
  have h261 : sqrtOfDrag 261 = 2273683708006843 / 140737488355328 := by
    unfold sqrtOfDrag; rw [if_neg (by norm_num), if_pos rfl]
  rw [h29, h261]
  refine ⟨?_, ?_, ?_, ?_⟩
  · rw [Real.lt_sqrt (by norm_num)]; norm_num
  · rw [Real.sqrt_lt' (by norm_num)]; norm_num
  · rw [Real.lt_sqrt (by norm_num)]; norm_num
  · rw [Real.sqrt_lt' (by norm_num)]; norm_num

/-- C8: `WidgetInteraction` does not always leave the heading at the
normalisation into `[0, 360)` of `Heading + delta`.  With the dial centre
`(268, 268)`, heading 0 and the last event position `(270, 273)`, the new
position `(274, 283)` lies on the same ray from the centre, so the angular
delta is 0 and the heading should stay 0.  With the doubles the library returns
for the two square roots and the two `atan2` calls, the normalised vectors
differ in the last bit, the computed delta is `-2 ^ (-52)` radians, `SetHeading`
receives about `-1.27e-14` and stores 360 (the defect of C1). -/
theorem C8_WidgetInteraction_stores_360 (sqrt : ℚ → ℚ) (atan2 : ℚ → ℚ → ℚ) (Pi : ℚ)
    (s : vtkCompassRepresentation) (ren : vtkRenderer)
    (hren : s.Renderer = some ren)
    (hc : (GetCenterAndUnitRadius ren.Point1 ren.Point2 s.HighlightState).1 = (268, 268))
    (hlast : ren.LastEventPosition = (270, 273)) (hH : s.Heading = 0)
    (hsqrt1 : sqrt 29 = 6063156554684915 / 1125899906842624)
    (hsqrt2 : sqrt 261 = 2273683708006843 / 140737488355328)
    (hatan1 : atan2 (8362974558186091 / 9007199254740992)
      (836297455818609 / 2251799813685248) = 5360589373853097 / 4503599627370496)
    (hatan2 : atan2 (8362974558186091 / 9007199254740992)
      (6690379646548873 / 18014398509481984) = 670073671731637 / 562949953421312)
    (hPi : Pi = 884279719003555 / 281474976710656) :
    ((274 : ℚ) - 268, (283 : ℚ) - 268) = (3 * (270 - 268), 3 * (273 - 268)) ∧
      WidgetInteraction sqrt atan2 Pi (274, 283) s =
        some (SetHeading (-(1007958012753983 / 79228162514264337593543950336)) s) ∧
      GetHeading (SetHeading (-(1007958012753983 / 79228162514264337593543950336)) s) = 360 ∧
      ¬ GetHeading (SetHeading (-(1007958012753983 / 79228162514264337593543950336)) s) <
        360 := by
  have key := GetHeading_SetHeading_just_below_zero
    (-(1007958012753983 / 79228162514264337593543950336)) s (by norm_num) (by norm_num)
  refine ⟨by norm_num, ?_, key, by rw [key]; norm_num⟩
  have v1 : ((((270 : ℤ) - 268 : ℤ) : ℚ), (((273 : ℤ) - 268 : ℤ) : ℚ)) = ((2 : ℚ), (5 : ℚ)) := by
    norm_num
  have v2a : binary64 ((274 : ℚ) - ((268 : ℤ) : ℚ)) = 6 := by
    rw [show (274 : ℚ) - ((268 : ℤ) : ℚ) = 6 by norm_num]
    exact binary64_small_integers.2.2.2.1
  have v2b : binary64 ((283 : ℚ) - ((268 : ℤ) : ℚ)) = 15 := by
    rw [show (283 : ℚ) - ((268 : ℤ) : ℚ) = 15 by norm_num]
    exact binary64_small_integers.2.2.2.2.1
  have d1 : binary64 ((670073671731637 / 562949953421312 : ℚ) -
      5360589373853097 / 4503599627370496) = -(1 / 4503599627370496) := by
    rw [show (670073671731637 / 562949953421312 : ℚ) - 5360589373853097 / 4503599627370496 =
      -(1 / 4503599627370496) by norm_num]
    exact binary64_of_double _ (-4503599627370496) (-52) (by norm_num) (by norm_num)
      (by norm_num)
  have d2 : binary64 (-(1 / 4503599627370496 : ℚ) * 180) = -(45 / 1125899906842624) := by
    rw [show -(1 / 4503599627370496 : ℚ) * 180 = -(45 / 1125899906842624) by norm_num]
    exact binary64_of_double _ (-6333186975989760) (-45) (by norm_num) (by norm_num)
      (by norm_num)
  have d3 : binary64 (-(45 / 1125899906842624 : ℚ) / (884279719003555 / 281474976710656)) =
      -(1007958012753983 / 79228162514264337593543950336) :=
    binary64_near _ _ (-47) (-8063664102031864) (by norm_num)
      (by rw [abs_of_neg (by norm_num)]; norm_num) (by rw [abs_of_neg (by norm_num)]; norm_num)
      (by norm_num) (by norm_num)
  have d4 : binary64 ((0 : ℚ) + -(1007958012753983 / 79228162514264337593543950336)) =
      -(1007958012753983 / 79228162514264337593543950336) := by
    rw [zero_add]
    exact binary64_of_double _ (-8063664102031864) (-47) (by norm_num) (by norm_num)
      (by norm_num)
  unfold WidgetInteraction
  rw [hren]
  simp only [hc, hlast]
  rw [v1, v2a, v2b, Normalize_2_5 sqrt hsqrt1, Normalize_6_15 sqrt hsqrt2]
  simp only []
  rw [hatan1, hatan2, d1, d2, hPi, d3, hH, d4]

/-- C8 on the freshly constructed compass attached to the 300 x 300 renderer
(dial centre `(268, 268)`, heading 0) after an event at `(270, 273)`, with the
doubles of the library as `sqrtOfDrag` and `atan2OfDrag` and the double of pi:
`WidgetInteraction((274, 283))` leaves the heading at 360. -/
theorem C8_WidgetInteraction_stores_360_witness :
    ∃ s' : vtkCompassRepresentation,
      WidgetInteraction sqrtOfDrag atan2OfDrag (884279719003555 / 281474976710656) (274, 283)
          { New with Renderer := some rendererDrag } = some s' ∧
        GetHeading s' = 360 := by
  have hc : (GetCenterAndUnitRadius rendererDrag.Point1 rendererDrag.Point2
      ({ New with Renderer := some rendererDrag } : vtkCompassRepresentation).HighlightState).1 =
      (268, 268) := congrArg Prod.fst GetCenterAndUnitRadius_renderer300
  have h := C8_WidgetInteraction_stores_360 sqrtOfDrag atan2OfDrag
    (884279719003555 / 281474976710656) { New with Renderer := some rendererDrag } rendererDrag
    rfl hc rfl rfl
    (by unfold sqrtOfDrag; rw [if_pos rfl])
    (by unfold sqrtOfDrag; rw [if_neg (by norm_num), if_pos rfl])
    (by unfold atan2OfDrag; rw [if_pos ⟨rfl, rfl⟩])
    (by
      unfold atan2OfDrag
      rw [if_neg (by rintro ⟨_, h⟩; norm_num at h), if_pos ⟨rfl, rfl⟩])
    rfl
  exact ⟨_, h.2.1, h.2.2.1⟩

/-- Truncation toward zero moves a number by less than one. -/
theorem truncate_bounds (q : ℚ) : q - 1 < (truncate q : ℚ) ∧ (truncate q : ℚ) < q + 1 := by
  unfold truncate
  split_ifs with h
  · have h1 := Int.floor_le q
    have h2 := Int.lt_floor_add_one q
    constructor <;> linarith
  · have h1 := Int.le_ceil q
    have h2 := Int.ceil_lt_add_one q
    constructor <;> linarith

/-- Truncation of a non-negative number does not exceed it. -/
theorem truncate_le (q : ℚ) (h : 0 ≤ q) : (truncate q : ℚ) ≤ q := by
  unfold truncate
  rw [if_pos h]
  exact Int.floor_le q

/-- The shape of the result of `GetCenterAndUnitRadius`: the centre is the
second anchor moved by a length `R` and truncated, the radius lies between 0
and `R`, and `2 * R` does not exceed either extent between the anchors. -/
theorem GetCenterAndUnitRadius_shape (p1 p2 : ℤ × ℤ) (hs : ℤ) :
    ∃ R : ℚ,
      (GetCenterAndUnitRadius p1 p2 hs).1 =
          (truncate ((p2.1 : ℚ) - R), truncate ((p2.2 : ℚ) - R)) ∧
        0 ≤ (GetCenterAndUnitRadius p1 p2 hs).2 ∧ (GetCenterAndUnitRadius p1 p2 hs).2 ≤ R ∧
        2 * R ≤ ((|p1.1 - p2.1| : ℤ) : ℚ) ∧ 2 * R ≤ ((|p1.2 - p2.2| : ℤ) : ℚ) := by
  have ha : (0 : ℚ) ≤ ((|p1.1 - p2.1| : ℤ) : ℚ) := by exact_mod_cast abs_nonneg _
  have hb : (0 : ℚ) ≤ ((|p1.2 - p2.2| : ℤ) : ℚ) := by exact_mod_cast abs_nonneg _
  set a : ℚ := ((|p1.1 - p2.1| : ℤ) : ℚ) with ha_def
  set b : ℚ := ((|p1.2 - p2.2| : ℤ) : ℚ) with hb_def
  set m : ℚ := if b < a then b else a with hm_def
  set sc0 : ℚ := 1 - (m / 2 - 40) / (m / 2 + 100) * (1 / 2) with hsc0_def
  set sc : ℚ := if sc0 > 1 then 1 else sc0 with hsc_def
  have key : GetCenterAndUnitRadius p1 p2 hs =
      if hs = 0 then
        if sc < 9 / 10 then
          ((truncate ((p2.1 : ℚ) - m / 2 * sc), truncate ((p2.2 : ℚ) - m / 2 * sc)),
            m / 2 * sc * sc * sc)
        else
          ((truncate ((p2.1 : ℚ) - m / 2 * sc), truncate ((p2.2 : ℚ) - m / 2 * sc)),
            m / 2 * sc)
      else
        ((truncate ((p2.1 : ℚ) - m / 2 * sc), truncate ((p2.2 : ℚ) - m / 2 * sc)),
          m / 2 * sc) := rfl
  have hm0 : 0 ≤ m := by
    rw [hm_def]; split_ifs <;> assumption
  have hma : m ≤ a := by
    rw [hm_def]; split_ifs with h
    · exact h.le
    · exact le_refl _
  have hmb : m ≤ b := by
    rw [hm_def]; split_ifs with h
    · exact le_refl _
    · exact not_lt.mp h
  have hden : 0 < m / 2 + 100 := by linarith
  have hsc0 : 0 < sc0 := by
    have : (m / 2 - 40) / (m / 2 + 100) < 1 := by
      rw [div_lt_one hden]; linarith
    rw [hsc0_def]; linarith
  have hscpos : 0 < sc := by
    rw [hsc_def]; split_ifs
    · norm_num
    · exact hsc0
  have hsc1 : sc ≤ 1 := by
    rw [hsc_def]; split_ifs with h
    · exact le_refl _
    · exact not_lt.mp h
  have hR0 : 0 ≤ m / 2 * sc := mul_nonneg (by linarith) hscpos.le
  have hRm : m / 2 * sc ≤ m / 2 := by
    have := mul_le_mul_of_nonneg_left hsc1 (by linarith : (0 : ℚ) ≤ m / 2)
    linarith
  have hRsc : m / 2 * sc * sc * sc ≤ m / 2 * sc := by
    have h1 : m / 2 * sc * sc ≤ m / 2 * sc := by
      have := mul_le_mul_of_nonneg_left hsc1 hR0
      linarith
    have h2 : m / 2 * sc * sc * sc ≤ m / 2 * sc * sc := by
      have := mul_le_mul_of_nonneg_left hsc1 (mul_nonneg hR0 hscpos.le)
      linarith
    linarith
  have hRsc0 : 0 ≤ m / 2 * sc * sc * sc := mul_nonneg (mul_nonneg hR0 hscpos.le) hscpos.le
  refine ⟨m / 2 * sc, ?_, ?_, ?_, by linarith, by linarith⟩
  · rw [key]; split_ifs <;> rfl
  · rw [key]; split_ifs
    · exact hRsc0
    · exact hR0
    · exact hR0
  · rw [key]; split_ifs
    · exact hRsc
    · exact le_refl _
    · exact le_refl _

/-- C9: the dial does not always fit inside the box spanned by the anchors,
although the comment in `GetCenterAndUnitRadius` says it does.  With the anchors
`(240, 240)`, `(297, 297)` the centre is `(268, 268)` and the radius 28.5, so
`center - radius = 239.5` is below `min(p1, p2) = 240`; with the anchors swapped
the centre is `(211, 211)` and `center - radius = 182.5`; with the anchors
`(-5, -5)`, `(0, 0)`, highlighted, the centre is `(-2, -2)` and the radius 2.5,
so `center + radius = 0.5` is above `max(p1, p2) = 0`. -/
theorem C9_dial_leaves_box :
    (GetCenterAndUnitRadius (240, 240) (297, 297) 0 = ((268, 268), 57 / 2) ∧
        ¬ (((min 240 297 : ℤ) : ℚ) ≤ ((268 : ℤ) : ℚ) - 57 / 2)) ∧
      (GetCenterAndUnitRadius (297, 297) (240, 240) 0 = ((211, 211), 57 / 2) ∧
        ¬ (((min 297 240 : ℤ) : ℚ) ≤ ((211 : ℤ) : ℚ) - 57 / 2)) ∧
      (GetCenterAndUnitRadius (-5, -5) (0, 0) 1 = ((-2, -2), 5 / 2) ∧
        ¬ (((-2 : ℤ) : ℚ) + 5 / 2 ≤ ((max (-5) 0 : ℤ) : ℚ))) := by
  refine ⟨⟨GetCenterAndUnitRadius_renderer300, by norm_num⟩, ⟨?_, by norm_num⟩,
    ⟨?_, by norm_num⟩⟩
  · have hf : ⌊(423 / 2 : ℚ)⌋ = 211 := by
      rw [Int.floor_eq_iff]; constructor <;> norm_num
    have ht : truncate (423 / 2) = 211 := by
      unfold truncate
      rw [if_pos (by norm_num), hf]
    simp only [GetCenterAndUnitRadius]
    norm_num
    exact ht
  · have hf : ⌈(-(5 / 2) : ℚ)⌉ = -2 := by
      rw [Int.ceil_eq_iff]; constructor <;> norm_num
    have ht : truncate (-(5 / 2)) = -2 := by
      unfold truncate
      rw [if_neg (by norm_num), hf]
    simp only [GetCenterAndUnitRadius]
    norm_num
    exact ht

/-- How far the dial can leave the box: for anchors with `p1[i] <= p2[i]` on
both axes and either highlight state, the radius is not negative and, on both
axes, `p1[i] - 1 < center[i] - radius` and `center[i] + radius < p2[i] + 1`,
and `center[i] + radius <= p2[i]` when `p1[i] >= 0`.  The miss is the
truncation of the centre to whole pixels. -/
theorem GetCenterAndUnitRadius_within_a_pixel (p1 p2 : ℤ × ℤ) (hs : ℤ)
    (hx : p1.1 ≤ p2.1) (hy : p1.2 ≤ p2.2) :
    0 ≤ (GetCenterAndUnitRadius p1 p2 hs).2 ∧
      ((p1.1 : ℚ) - 1 <
          ((GetCenterAndUnitRadius p1 p2 hs).1.1 : ℚ) - (GetCenterAndUnitRadius p1 p2 hs).2 ∧
        ((GetCenterAndUnitRadius p1 p2 hs).1.1 : ℚ) + (GetCenterAndUnitRadius p1 p2 hs).2 <
          (p2.1 : ℚ) + 1 ∧
        (0 ≤ p1.1 →
          ((GetCenterAndUnitRadius p1 p2 hs).1.1 : ℚ) + (GetCenterAndUnitRadius p1 p2 hs).2 ≤
            (p2.1 : ℚ))) ∧
      ((p1.2 : ℚ) - 1 <
          ((GetCenterAndUnitRadius p1 p2 hs).1.2 : ℚ) - (GetCenterAndUnitRadius p1 p2 hs).2 ∧
        ((GetCenterAndUnitRadius p1 p2 hs).1.2 : ℚ) + (GetCenterAndUnitRadius p1 p2 hs).2 <
          (p2.2 : ℚ) + 1 ∧
        (0 ≤ p1.2 →
          ((GetCenterAndUnitRadius p1 p2 hs).1.2 : ℚ) + (GetCenterAndUnitRadius p1 p2 hs).2 ≤
            (p2.2 : ℚ))) := by
  obtain ⟨R, hc, hr0, hrR, hRx, hRy⟩ := GetCenterAndUnitRadius_shape p1 p2 hs
  have hax : ((|p1.1 - p2.1| : ℤ) : ℚ) = (p2.1 : ℚ) - (p1.1 : ℚ) := by
    rw [abs_of_nonpos (by linarith)]; push_cast; ring
  have hay : ((|p1.2 - p2.2| : ℤ) : ℚ) = (p2.2 : ℚ) - (p1.2 : ℚ) := by
    rw [abs_of_nonpos (by linarith)]; push_cast; ring
  rw [hax] at hRx
  rw [hay] at hRy
  have hx' : (p1.1 : ℚ) ≤ (p2.1 : ℚ) := by exact_mod_cast hx
  have hy' : (p1.2 : ℚ) ≤ (p2.2 : ℚ) := by exact_mod_cast hy
  have hc1 : (GetCenterAndUnitRadius p1 p2 hs).1.1 = truncate ((p2.1 : ℚ) - R) := by rw [hc]
  have hc2 : (GetCenterAndUnitRadius p1 p2 hs).1.2 = truncate ((p2.2 : ℚ) - R) := by rw [hc]
  have b1 := truncate_bounds ((p2.1 : ℚ) - R)
  have b2 := truncate_bounds ((p2.2 : ℚ) - R)
  rw [hc1, hc2]
  refine ⟨hr0, ⟨by linarith, by linarith, ?_⟩, ⟨by linarith, by linarith, ?_⟩⟩
  · intro h0
    have h0' : (0 : ℚ) ≤ (p1.1 : ℚ) := by exact_mod_cast h0
    have := truncate_le ((p2.1 : ℚ) - R) (by linarith)
    linarith
  · intro h0
    have h0' : (0 : ℚ) ≤ (p1.2 : ℚ) := by exact_mod_cast h0
    have := truncate_le ((p2.2 : ℚ) - R) (by linarith)
    linarith

/-- C10: for every flag `f`, `Highlight(f)` on a state whose `HighlightState`
already equals `f` returns the state unchanged (no ring property swap, nothing
propagated to the sub-controls), and `Highlight(f)` followed by `Highlight(f)`
leaves the same state as a single `Highlight(f)`. -/
theorem C10_Highlight_idempotent (f : ℤ) (s : vtkCompassRepresentation) :
    (s.HighlightState = f → Highlight f s = s) ∧
      Highlight f (Highlight f s) = Highlight f s := by
  have h1 : ∀ t : vtkCompassRepresentation, t.HighlightState = f → Highlight f t = t := by
    intro t ht
    unfold Highlight
    rw [if_pos ht.symm]
  refine ⟨h1 s, h1 _ ?_⟩
  unfold Highlight
  by_cases h : f = s.HighlightState
  · rw [if_pos h]; exact h.symm
  · rw [if_neg h]

/-- C10 at the freshly constructed compass, whose `HighlightState` is 0:
`Highlight(0)` changes nothing, and a second `Highlight(1)` changes nothing
after the first. -/
theorem C10_Highlight_idempotent_witness :
    New.HighlightState = 0 ∧ Highlight 0 New = New ∧
      Highlight 1 (Highlight 1 New) = Highlight 1 New ∧
      (Highlight 1 New).RingActor = RingActorProperty.SelectedProperty :=
  ⟨rfl, (C10_Highlight_idempotent 0 New).1 rfl, (C10_Highlight_idempotent 1 New).2, by decide⟩

/-- C11: with a renderer attached, the representation visible and the renderer
of non-zero size, after one `BuildRepresentation()` a second one, with the
representation and the window not modified in between, returns at the time-stamp
guard (its two conditions hold) and leaves the whole state unchanged: the build
time stamp, the ring transform, the label and status text, the slider end
points and the backdrop.  The time stamps of the representation and of the
window were drawn from the clock before the first call (`MTime <= Clock`,
window stamp `<= Clock`). -/
theorem C11_BuildRepresentation_idempotent (s : vtkCompassRepresentation) (ren : vtkRenderer)
    (hren : s.Renderer = some ren) (hvis : s.Visibility = true)
    (hw : ren.Size.1 ≠ 0) (hh : ren.Size.2 ≠ 0)
    (hM : s.MTime ≤ s.Clock) (hW : ∀ t, ren.WindowMTime = some t → t ≤ s.Clock) :
    (BuildRepresentation s).MTime ≤ (BuildRepresentation s).BuildTime ∧
      windowNotModified ren (BuildRepresentation s).BuildTime = true ∧
      BuildRepresentation (BuildRepresentation s) = BuildRepresentation s ∧
      (BuildRepresentation (BuildRepresentation s)).BuildTime =
        (BuildRepresentation s).BuildTime ∧
      (BuildRepresentation (BuildRepresentation s)).XForm = (BuildRepresentation s).XForm ∧
      (BuildRepresentation (BuildRepresentation s)).LabelActor =
        (BuildRepresentation s).LabelActor ∧
      (BuildRepresentation (BuildRepresentation s)).StatusActor =
        (BuildRepresentation s).StatusActor ∧
      (BuildRepresentation (BuildRepresentation s)).TiltRepresentation =
        (BuildRepresentation s).TiltRepresentation ∧
      (BuildRepresentation (BuildRepresentation s)).DistanceRepresentation =
        (BuildRepresentation s).DistanceRepresentation ∧
      (BuildRepresentation (BuildRepresentation s)).Backdrop =
        (BuildRepresentation s).Backdrop := by
  have hguard : ∀ u : vtkCompassRepresentation, u.Renderer = some ren →
      u.MTime ≤ u.BuildTime → windowNotModified ren u.BuildTime = true →
      BuildRepresentation u = u := by
    intro u hu h1 h2
    unfold BuildRepresentation
    rw [hu]
    simp only []
    split_ifs with h3 h4
    · rfl
    · rfl
    · exact absurd ⟨h1, h2⟩ h4
    · exact absurd ⟨h1, h2⟩ h4
  have hsize : ¬ (ren.Size.1 = 0 ∨ ren.Size.2 = 0) := by
    rintro (h | h)
    · exact hw h
    · exact hh h
  have key : (BuildRepresentation s).Renderer = some ren ∧
      (BuildRepresentation s).MTime ≤ (BuildRepresentation s).BuildTime ∧
      windowNotModified ren (BuildRepresentation s).BuildTime = true := by
    by_cases hg : s.MTime ≤ s.BuildTime ∧ windowNotModified ren s.BuildTime = true
    · rw [hguard s hren hg.1 hg.2]
      exact ⟨hren, hg.1, hg.2⟩
    · have hB : BuildRepresentation s = layout ren s := by
        unfold BuildRepresentation
        rw [hren]
        simp only []
        rw [if_neg (by rw [hvis]; decide), if_neg hg, if_neg hsize]
      rw [hB]
      refine ⟨hren, ?_, ?_⟩
      · show s.MTime ≤ s.Clock + 1
        exact Nat.le_succ_of_le hM
      · show windowNotModified ren (s.Clock + 1) = true
        unfold windowNotModified
        cases hwm : ren.WindowMTime with
        | none => rfl
        | some t =>
          simp only [decide_eq_true_eq]
          exact Nat.le_succ_of_le (hW t hwm)
  have hidem := hguard (BuildRepresentation s) key.1 key.2.1 key.2.2
  refine ⟨key.2.1, key.2.2, hidem, ?_, ?_, ?_, ?_, ?_, ?_, ?_⟩ <;> rw [hidem]

/-- C11 on the freshly constructed compass attached to the 300 x 300 renderer:
the first call lays the compass out and stamps it at time 2, the second call
changes nothing. -/
theorem C11_BuildRepresentation_idempotent_witness :
    (BuildRepresentation { New with Renderer := some renderer300 }).BuildTime = 2 ∧
      BuildRepresentation (BuildRepresentation { New with Renderer := some renderer300 }) =
        BuildRepresentation { New with Renderer := some renderer300 } :=
  ⟨rfl,
    (C11_BuildRepresentation_idempotent { New with Renderer := some renderer300 } renderer300
      rfl rfl (by decide) (by decide) (Nat.le_refl 1)
      (fun _ ht => Option.noConfusion ht)).2.2.1⟩

/-- C12, as stated, fails for `GetActors` and `ReleaseGraphicsResources`: on the
freshly constructed compass (not highlighted) both visit the status text, which
the stated order leaves out, and on the highlighted compass both visit it after
the label, not before the ring. -/
theorem C12_order_counterexample :
    GetActors [] New =
        [Part.Backdrop, Part.RingActor, Part.LabelActor, Part.StatusActor,
          Part.TiltRepresentation, Part.DistanceRepresentation] ∧
      specifiedOrder New =
        [Part.Backdrop, Part.RingActor, Part.LabelActor, Part.TiltRepresentation,
          Part.DistanceRepresentation] ∧
      GetActors [] New ≠ specifiedOrder New ∧
      ReleaseGraphicsResources New ≠ specifiedOrder New ∧
      specifiedOrder (Highlight 1 New) =
        [Part.Backdrop, Part.StatusActor, Part.RingActor, Part.LabelActor,
          Part.TiltRepresentation, Part.DistanceRepresentation] ∧
      GetActors [] (Highlight 1 New) ≠ specifiedOrder (Highlight 1 New) ∧
      ReleaseGraphicsResources (Highlight 1 New) ≠ specifiedOrder (Highlight 1 New) := by
  have h0 : specifiedOrder New =
      [Part.Backdrop, Part.RingActor, Part.LabelActor, Part.TiltRepresentation,
        Part.DistanceRepresentation] := by decide
  have h1 : specifiedOrder (Highlight 1 New) =
      [Part.Backdrop, Part.StatusActor, Part.RingActor, Part.LabelActor,
        Part.TiltRepresentation, Part.DistanceRepresentation] := by decide
  refine ⟨rfl, h0, ?_, ?_, h1, ?_, ?_⟩
  · rw [h0]; decide
  · rw [h0]; decide
  · rw [h1]; decide
  · rw [h1]; decide

/-- C12, amended: `RenderOpaqueGeometry` and `RenderOverlay` rebuild the
representation and then visit backdrop, the status text only when the compass is
highlighted and the status string is not empty, ring, label, tilt sub-control,
distance sub-control, and return the sum of what the visited parts return;
`GetActors` and `ReleaseGraphicsResources` visit backdrop, ring, label, the
status text (always), tilt sub-control, distance sub-control. -/
theorem C12_order_of_parts (render : Part → ℤ) (s : vtkCompassRepresentation) :
    (RenderOpaqueGeometry render s).1 = BuildRepresentation s ∧
      (RenderOpaqueGeometry render s).2.1 = specifiedOrder (BuildRepresentation s) ∧
      (RenderOpaqueGeometry render s).2.2 =
        ((specifiedOrder (BuildRepresentation s)).map render).sum ∧
      (RenderOverlay render s).1 = BuildRepresentation s ∧
      (RenderOverlay render s).2.1 = specifiedOrder (BuildRepresentation s) ∧
      (RenderOverlay render s).2.2 =
        ((specifiedOrder (BuildRepresentation s)).map render).sum ∧
      GetActors [] s =
        [Part.Backdrop, Part.RingActor, Part.LabelActor, Part.StatusActor,
          Part.TiltRepresentation, Part.DistanceRepresentation] ∧
      ReleaseGraphicsResources s =
        [Part.Backdrop, Part.RingActor, Part.LabelActor, Part.StatusActor,
          Part.TiltRepresentation, Part.DistanceRepresentation] := by
  refine ⟨rfl, ?_, ?_, rfl, ?_, ?_, rfl, rfl⟩
  all_goals
    simp only [RenderOpaqueGeometry, RenderOverlay, specifiedOrder, visit]
    by_cases h1 : (BuildRepresentation s).HighlightState ≠ 0
    · by_cases h2 : strlenNonZero (BuildRepresentation s).StatusActor = true
      · simp [h1, h2]; try ring
      · simp [h1, h2]; try ring
    · simp [h1]; try ring

/-- The embedding `ComputeInteractionState` is `InteractionStateFromTests` at
the outcomes of the exact comparisons, on an attached renderer of non-zero
size. -/
theorem ComputeInteractionState_eq_fromTests
    (sliderState :
      vtkCenteredSliderRepresentation → ℤ → ℤ → vtkSliderRepresentation.InteractionStateType)
    (x y : ℤ) (s : vtkCompassRepresentation) (ren : vtkRenderer)
    (hren : s.Renderer = some ren) (hw : ren.Size.1 ≠ 0) (hh : ren.Size.2 ≠ 0) :
    ComputeInteractionState sliderState x y s =
      some (InteractionStateFromTests
        (sqrtLt
            ((x - (GetCenterAndUnitRadius ren.Point1 ren.Point2 s.HighlightState).1.1) *
                (x - (GetCenterAndUnitRadius ren.Point1 ren.Point2 s.HighlightState).1.1) +
              (y - (GetCenterAndUnitRadius ren.Point1 ren.Point2 s.HighlightState).1.2) *
                (y - (GetCenterAndUnitRadius ren.Point1 ren.Point2 s.HighlightState).1.2))
            ((GetCenterAndUnitRadius ren.Point1 ren.Point2 s.HighlightState).2 * s.OuterRadius +
              2) &&
          sqrtGt
            ((x - (GetCenterAndUnitRadius ren.Point1 ren.Point2 s.HighlightState).1.1) *
                (x - (GetCenterAndUnitRadius ren.Point1 ren.Point2 s.HighlightState).1.1) +
              (y - (GetCenterAndUnitRadius ren.Point1 ren.Point2 s.HighlightState).1.2) *
                (y - (GetCenterAndUnitRadius ren.Point1 ren.Point2 s.HighlightState).1.2))
            ((GetCenterAndUnitRadius ren.Point1 ren.Point2 s.HighlightState).2 * s.InnerRadius -
              2))
        (sliderState s.TiltRepresentation x y) (sliderState s.DistanceRepresentation x y)
        (sqrtLt
          ((x - (GetCenterAndUnitRadius ren.Point1 ren.Point2 s.HighlightState).1.1) *
              (x - (GetCenterAndUnitRadius ren.Point1 ren.Point2 s.HighlightState).1.1) +
            (y - (GetCenterAndUnitRadius ren.Point1 ren.Point2 s.HighlightState).1.2) *
              (y - (GetCenterAndUnitRadius ren.Point1 ren.Point2 s.HighlightState).1.2))
          ((GetCenterAndUnitRadius ren.Point1 ren.Point2 s.HighlightState).2 * 3))
        s) := by
  have hsize : ¬ (ren.Size.1 = 0 ∨ ren.Size.2 = 0) := by
    rintro (h | h)
    · exact hw h
    · exact hh h
  unfold ComputeInteractionState InteractionStateFromTests
  rw [hren]
  simp only []
  rw [if_neg hsize]
  simp only [Bool.and_eq_true]
  split_ifs <;> first | rfl | (split <;> rfl)

/-- The result of `GetCenterAndUnitRadius` in terms of the half extent and the
shrink factor. -/
theorem GetCenterAndUnitRadius_scale (p1 p2 : ℤ × ℤ) (hs : ℤ) :
    GetCenterAndUnitRadius p1 p2 hs =
      if hs = 0 then
        if scale (halfExtent p1 p2) < 9 / 10 then
          ((truncate ((p2.1 : ℚ) - halfExtent p1 p2 * scale (halfExtent p1 p2)),
              truncate ((p2.2 : ℚ) - halfExtent p1 p2 * scale (halfExtent p1 p2))),
            halfExtent p1 p2 * scale (halfExtent p1 p2) * scale (halfExtent p1 p2) *
              scale (halfExtent p1 p2))
        else
          ((truncate ((p2.1 : ℚ) - halfExtent p1 p2 * scale (halfExtent p1 p2)),
              truncate ((p2.2 : ℚ) - halfExtent p1 p2 * scale (halfExtent p1 p2))),
            halfExtent p1 p2 * scale (halfExtent p1 p2))
      else
        ((truncate ((p2.1 : ℚ) - halfExtent p1 p2 * scale (halfExtent p1 p2)),
            truncate ((p2.2 : ℚ) - halfExtent p1 p2 * scale (halfExtent p1 p2))),
          halfExtent p1 p2 * scale (halfExtent p1 p2)) := rfl

/-- The half extent is not negative. -/
theorem halfExtent_nonneg (p1 p2 : ℤ × ℤ) : 0 ≤ halfExtent p1 p2 := by
  have ha : (0 : ℚ) ≤ ((|p1.1 - p2.1| : ℤ) : ℚ) := by exact_mod_cast abs_nonneg _
  have hb : (0 : ℚ) ≤ ((|p1.2 - p2.2| : ℤ) : ℚ) := by exact_mod_cast abs_nonneg _
  unfold halfExtent
  simp only []
  split_ifs <;> linarith

/-- The shrink factor is the smaller of 1 and `1 - 0.5 * (r - 40) / (r + 100)`. -/
theorem scale_eq_min (r : ℚ) : scale r = min 1 (1 - (1 / 2) * (r - 40) / (r + 100)) := by
  have e : 1 - (r - 40) / (r + 100) * (1 / 2) = 1 - (1 / 2) * (r - 40) / (r + 100) := by ring
  unfold scale
  simp only []
  rw [e]
  split_ifs with h
  · rw [min_eq_left h.le]
  · rw [min_eq_right (not_lt.mp h)]

/-- For a half extent `r >= 0` the shrink factor lies in `(0.5, 1]`. -/
theorem scale_bounds (r : ℚ) (hr : 0 ≤ r) : 1 / 2 < scale r ∧ scale r ≤ 1 := by
  have hden : 0 < r + 100 := by linarith
  have h1 : (r - 40) / (r + 100) < 1 := by
    rw [div_lt_one hden]; linarith
  rw [scale_eq_min]
  refine ⟨lt_min (by norm_num) ?_, min_le_left _ _⟩
  have e : (1 / 2 : ℚ) * (r - 40) / (r + 100) = (1 / 2) * ((r - 40) / (r + 100)) := by ring
  rw [e]
  linarith

/-- C14: for every half extent `r >= 0`, the shrink factor
`scale = min(1, 1 - 0.5 * (r - 40) / (r + 100))` used by
`GetCenterAndUnitRadius` (the highlighted radius is the half extent times the
scale of the half extent) has values in `(0.5, 1]`, equals 1 exactly when
`r <= 40`, and is non-increasing: `scale r' <= scale r` for every `r' >= r`. -/
theorem C14_scale_shrinks (r r' : ℚ) (hr : 0 ≤ r) (hrr : r ≤ r') :
    scale r = min 1 (1 - (1 / 2) * (r - 40) / (r + 100)) ∧
      1 / 2 < scale r ∧ scale r ≤ 1 ∧ (scale r = 1 ↔ r ≤ 40) ∧ scale r' ≤ scale r ∧
      ∀ p1 p2 : ℤ × ℤ,
        (GetCenterAndUnitRadius p1 p2 1).2 = halfExtent p1 p2 * scale (halfExtent p1 p2) := by
  have hden : 0 < r + 100 := by linarith
  have hden' : 0 < r' + 100 := by linarith
  have e : ∀ t : ℚ, (1 / 2 : ℚ) * (t - 40) / (t + 100) = (1 / 2) * ((t - 40) / (t + 100)) := by
    intro t; ring
  refine ⟨scale_eq_min r, (scale_bounds r hr).1, (scale_bounds r hr).2, ?_, ?_, ?_⟩
  · rw [scale_eq_min, e]
    constructor
    · intro h
      have h1 : (1 : ℚ) ≤ 1 - 1 / 2 * ((r - 40) / (r + 100)) := by
        have hm := min_le_right (1 : ℚ) (1 - 1 / 2 * ((r - 40) / (r + 100)))
        rw [h] at hm
        exact hm
      have h2 : (r - 40) / (r + 100) ≤ 0 := by linarith
      rw [div_le_iff₀ hden] at h2
      linarith
    · intro h
      have h2 : (r - 40) / (r + 100) ≤ 0 := by
        rw [div_le_iff₀ hden]; linarith
      have h3 : (1 : ℚ) ≤ 1 - 1 / 2 * ((r - 40) / (r + 100)) := by linarith
      exact min_eq_left h3
  · rw [scale_eq_min, scale_eq_min, e, e]
    have hmono : (r - 40) / (r + 100) ≤ (r' - 40) / (r' + 100) := by
      rw [div_le_div_iff₀ hden hden']
      nlinarith
    exact min_le_min (le_refl _) (by linarith)
  · intro p1 p2
    rw [GetCenterAndUnitRadius_scale]
    rw [if_neg (by decide)]

/-- C14 at the half extents 40 and 500: the scale is 1 at 40 and `37 / 60` at
500, between 0.5 and 1 and not above the scale at 40. -/
theorem C14_scale_shrinks_witness :
    scale 40 = 1 ∧ scale 500 = 37 / 60 ∧ scale 500 ≤ scale 40 ∧ 1 / 2 < scale 500 := by
  have h := C14_scale_shrinks 40 500 (by norm_num) (by norm_num)
  have h' := C14_scale_shrinks 500 500 (by norm_num) (by norm_num)
  refine ⟨h.2.2.2.1.mpr (le_refl _), ?_, h.2.2.2.2.1, h'.2.1⟩
  rw [h'.1]
  norm_num

/-- C15: for every anchor configuration, `GetCenterAndUnitRadius` returns the
same centre un-highlighted (`HighlightState = 0`) and highlighted
(`HighlightState = hs`, not 0), and the un-highlighted radius is never larger
than the highlighted one: it is the highlighted radius times `scale ^ 2` when
`scale < 0.9` and the highlighted radius itself otherwise. -/
theorem C15_unhighlighted_shrinks (p1 p2 : ℤ × ℤ) (hs : ℤ) (hhs : hs ≠ 0) :
    (GetCenterAndUnitRadius p1 p2 0).1 = (GetCenterAndUnitRadius p1 p2 hs).1 ∧
      (GetCenterAndUnitRadius p1 p2 0).2 ≤ (GetCenterAndUnitRadius p1 p2 hs).2 ∧
      (scale (halfExtent p1 p2) < 9 / 10 →
        (GetCenterAndUnitRadius p1 p2 0).2 =
          (GetCenterAndUnitRadius p1 p2 hs).2 * scale (halfExtent p1 p2) ^ 2) ∧
      (¬ scale (halfExtent p1 p2) < 9 / 10 →
        (GetCenterAndUnitRadius p1 p2 0).2 = (GetCenterAndUnitRadius p1 p2 hs).2) := by
  have h0 := halfExtent_nonneg p1 p2
  have hb := scale_bounds (halfExtent p1 p2) h0
  have hR : 0 ≤ halfExtent p1 p2 * scale (halfExtent p1 p2) :=
    mul_nonneg h0 (by linarith [hb.1])
  have hsq : scale (halfExtent p1 p2) * scale (halfExtent p1 p2) ≤ 1 := by
    nlinarith [hb.1, hb.2]
  rw [GetCenterAndUnitRadius_scale p1 p2 0, GetCenterAndUnitRadius_scale p1 p2 hs,
    if_pos rfl, if_neg hhs]
  by_cases hsc : scale (halfExtent p1 p2) < 9 / 10
  · rw [if_pos hsc]
    refine ⟨rfl, ?_, fun _ => by ring, fun h => absurd hsc h⟩
    show halfExtent p1 p2 * scale (halfExtent p1 p2) * scale (halfExtent p1 p2) *
        scale (halfExtent p1 p2) ≤ halfExtent p1 p2 * scale (halfExtent p1 p2)
    nlinarith [mul_le_mul_of_nonneg_left hsq hR]
  · rw [if_neg hsc]
    exact ⟨rfl, le_refl _, fun h => absurd h hsc, fun _ => rfl⟩

/-- C15 at the anchors `(0, 0)`, `(1000, 1000)`: the half extent is 500, the
scale `37 / 60` is below 0.9, and the un-highlighted radius is the highlighted
one times `(37 / 60) ^ 2`, with the same centre. -/
theorem C15_unhighlighted_shrinks_witness :
    scale (halfExtent (0, 0) (1000, 1000)) < 9 / 10 ∧
      (GetCenterAndUnitRadius (0, 0) (1000, 1000) 0).1 =
        (GetCenterAndUnitRadius (0, 0) (1000, 1000) 1).1 ∧
      (GetCenterAndUnitRadius (0, 0) (1000, 1000) 0).2 =
        (GetCenterAndUnitRadius (0, 0) (1000, 1000) 1).2 * (37 / 60) ^ 2 := by
  have hh : halfExtent (0, 0) (1000, 1000) = 500 := by
    simp only [halfExtent]; norm_num
  have hs : scale 500 = 37 / 60 := by
    rw [scale_eq_min]; norm_num
  have hlt : scale (halfExtent (0, 0) (1000, 1000)) < 9 / 10 := by
    rw [hh, hs]; norm_num
  have h := C15_unhighlighted_shrinks (0, 0) (1000, 1000) 1 (by decide)
  refine ⟨hlt, h.1, ?_⟩
  have h2 := h.2.2.1 hlt
  rw [hh, hs] at h2
  exact h2

/-- The cells and the point ids of `BuildRing` do not depend on the radii. -/
theorem BuildRing_ids (OuterRadius InnerRadius : ℚ) :
    (BuildRing OuterRadius InnerRadius).Lines = (BuildRing 0 0).Lines ∧
      (BuildRing OuterRadius InnerRadius).Polys = (BuildRing 0 0).Polys ∧
      (BuildRing OuterRadius InnerRadius).SetPoint.map Prod.fst =
        (BuildRing 0 0).SetPoint.map Prod.fst :=
  ⟨rfl, rfl, rfl⟩

/-- C16: `BuildRing` builds 4 line cells and 3 marker triangles; every point
index it inserts lies in `[0, 73)`, the size of the point array allocated by
the constructor; each line cell declares 17 indices, receives exactly 17 and
ends on the index it starts with; each marker cell declares and receives
exactly 3; and `SetPoint` is called for every one of the 73 indices and for no
index outside `[0, 73)`. -/
theorem C16_BuildRing_indices (OuterRadius InnerRadius : ℚ) :
    NumberOfPoints = 73 ∧
      (BuildRing OuterRadius InnerRadius).Lines.length = 4 ∧
      (BuildRing OuterRadius InnerRadius).Polys.length = 3 ∧
      (∀ c ∈ (BuildRing OuterRadius InnerRadius).Lines,
        c.1 = 17 ∧ c.2.length = 17 ∧ c.2.head? = c.2.getLast? ∧
          ∀ id ∈ c.2, 0 ≤ id ∧ id < NumberOfPoints) ∧
      (∀ c ∈ (BuildRing OuterRadius InnerRadius).Polys,
        c.1 = 3 ∧ c.2.length = 3 ∧ ∀ id ∈ c.2, 0 ≤ id ∧ id < NumberOfPoints) ∧
      (∀ k : ℤ, 0 ≤ k → k < NumberOfPoints →
        k ∈ (BuildRing OuterRadius InnerRadius).SetPoint.map Prod.fst) ∧
      (∀ k ∈ (BuildRing OuterRadius InnerRadius).SetPoint.map Prod.fst,
        0 ≤ k ∧ k < NumberOfPoints) := by
  obtain ⟨hL, hP, hS⟩ := BuildRing_ids OuterRadius InnerRadius
  rw [hL, hP, hS]
  refine ⟨rfl, by decide, by decide, by decide, by decide, ?_, by decide⟩
  intro k h0 h1
  have hall : ∀ n ∈ List.range 73, (n : ℤ) ∈ (BuildRing 0 0).SetPoint.map Prod.fst := by
    decide
  obtain ⟨n, rfl⟩ := Int.eq_ofNat_of_zero_le h0
  have hn : n < 73 := by
    have : (n : ℤ) < 73 := h1
    omega
  exact hall n (List.mem_range.mpr hn)

/-- C16 for the radii of the constructor (0.9 and 0.75): the index 72 is
assigned, and the first line cell is the closed loop
`0..7, 42..35, 0`. -/
theorem C16_BuildRing_indices_witness :
    (72 : ℤ) ∈ (BuildRing (9 / 10) (3 / 4)).SetPoint.map Prod.fst ∧
      (BuildRing (9 / 10) (3 / 4)).Lines.head? =
        some (17, [0, 1, 2, 3, 4, 5, 6, 7, 42, 41, 40, 39, 38, 37, 36, 35, 0]) :=
  ⟨(C16_BuildRing_indices (9 / 10) (3 / 4)).2.2.2.2.2.1 72 (by decide) (by decide), rfl⟩
